import Mathlib

/-!
# Verification of the OpenAPI-to-MCP translation engine and call dispatcher

This development gives a shallow embedding of the operation-to-tool
translation engine and request dispatcher of the `openapi2mcp` package
(`register.go`, `tool.go`, `schema.go`) and proves properties of it.

Modelling conventions:
* Go `map[string]any` argument objects are association lists
  `List (String × Value)`; lookup is first-match.  Where Go iterates over a
  map (nondeterministic order) the embedding iterates over the list in
  order, and where Go's `encoding/json` marshals a map (sorted keys) the
  embedding sorts by key.
* JSON numbers (`float64` after `encoding/json` decoding) are modelled as
  rationals; the decimal literals appearing in the program are represented
  exactly, and the decimal rendering below agrees with Go's
  shortest-round-trip formatting on them.
* External library calls (`strings.*`, `net/url` query encoding,
  `encoding/base64`, `net/http` status text) are modelled by explicit
  executable functions with the documented behaviour of those libraries.
* The injectable HTTP transport, the external JSON-Schema validator and
  the process environment are parameters of the dispatcher.
-/

/-- JSON-compatible runtime values: the shape of Go `any` after
`encoding/json` decoding (`nil`, `bool`, `string`, `float64`, `[]any`,
`map[string]any`). -/
inductive Value where
  | null : Value
  | bool : Bool → Value
  | str : String → Value
  | num : ℚ → Value
  | arr : List Value → Value
  | obj : List (String × Value) → Value

/-! ## String utilities modelling the Go standard library -/

/-- Does `pat` occur at the head of `l`?  Models the prefix test used by
`strings.HasPrefix`. -/
def listStarts : List Char → List Char → Bool
  | [], _ => true
  | _ :: _, [] => false
  | a :: as, b :: bs => a == b && listStarts as bs

/-- Models `strings.HasPrefix`. -/
def goHasPrefix (s pre : String) : Bool :=
  listStarts pre.data s.data

/-- Models `strings.HasSuffix`. -/
def goHasSuffix (s suf : String) : Bool :=
  listStarts suf.data.reverse s.data.reverse

/-- Models `strings.Contains`. -/
def containsList (sub : List Char) : List Char → Bool
  | [] => sub.isEmpty
  | c :: rest => listStarts sub (c :: rest) || containsList sub rest

/-- Models `strings.Contains`. -/
def goContains (s sub : String) : Bool :=
  containsList sub.data s.data

/-- Replacement of every occurrence of `pat` by `repl`, fuel-indexed so that
the recursion is structural (`fuel` starts at the length of the scanned
list, and at least one character is consumed per step).  Models
`strings.ReplaceAll` for non-empty patterns, which is the only way the
program calls it. -/
def replaceAux (pat repl : List Char) : Nat → List Char → List Char
  | _, [] => []
  | 0, l => l
  | fuel + 1, c :: rest =>
    if listStarts pat (c :: rest) && !pat.isEmpty then
      repl ++ replaceAux pat repl fuel (List.drop (pat.length - 1) rest)
    else
      c :: replaceAux pat repl fuel rest

/-- Models `strings.ReplaceAll`. -/
def goReplaceAll (s pat repl : String) : String :=
  String.mk (replaceAux pat.data repl.data s.data.length s.data)

/-- Models `strings.Join`. -/
def goJoin (l : List String) (sep : String) : String :=
  match l with
  | [] => ""
  | [x] => x
  | x :: y :: rest => x ++ sep ++ goJoin (y :: rest) sep

/-- Sequential concatenation of string pieces, modelling consecutive
`strings.Builder.WriteString` calls. -/
def concatStrings (l : List String) : String :=
  l.foldr (fun a b => a ++ b) ""

/-- Models `strings.TrimSpace`. -/
def goTrimSpace (s : String) : String :=
  String.mk (((s.data.dropWhile Char.isWhitespace).reverse.dropWhile Char.isWhitespace).reverse)

/-- Models `strings.ToUpper` (the program only upper-cases ASCII HTTP
method names). -/
def goToUpper (s : String) : String :=
  String.mk (s.data.map Char.toUpper)

/-- Models `strings.Split` (full split on a separator). -/
def splitAux (sep : List Char) : Nat → List Char → List Char → List (List Char)
  | _, acc, [] => [acc.reverse]
  | 0, acc, l => [acc.reverse ++ l]
  | fuel + 1, acc, c :: rest =>
    if listStarts sep (c :: rest) && !sep.isEmpty then
      acc.reverse :: splitAux sep fuel [] (List.drop (sep.length - 1) rest)
    else
      splitAux sep fuel (c :: acc) rest

/-- Models `strings.Split`. -/
def goSplit (s sep : String) : List String :=
  (splitAux sep.data s.data.length [] s.data).map String.mk

/-- Models `strings.Trim(s, quote)` for the double-quote cutset used when
extracting a filename from a `Content-Disposition` header. -/
def goTrimQuotes (s : String) : String :=
  String.mk (((s.data.dropWhile (· == '"')).reverse.dropWhile (· == '"')).reverse)

/-! ## Decimal rendering (Go `fmt`/`strconv`) -/

/-- Decimal digits of a natural number (fuel-indexed structural recursion;
the fuel `n + 1` always suffices).  Models the digit rendering used by Go
`fmt` `%d`. -/
def natDecAux : Nat → Nat → List Char → List Char
  | 0, _, acc => acc
  | fuel + 1, n, acc =>
    let acc' := Nat.digitChar (n % 10) :: acc
    if n < 10 then acc' else natDecAux fuel (n / 10) acc'

/-- Decimal rendering of a natural number. -/
def natDecimal (n : Nat) : String :=
  String.mk (natDecAux (n + 1) n [])

/-- Decimal rendering of an integer; models `fmt.Sprintf("%d", _)`. -/
def intDecimal (i : Int) : String :=
  if i < 0 then "-" ++ natDecimal i.natAbs else natDecimal i.natAbs

/-- Truncation of a rational toward zero: the value of Go's `int64(v)`
conversion applied to a `float64`. -/
def ratTrunc (q : ℚ) : Int :=
  Int.tdiv q.num (Int.ofNat q.den)

/-- Fractional decimal digits of `num / den` (long division, fuel-bounded
by the 17 significant digits a `float64` round-trip can need). -/
def fracDecAux (den : Nat) : Nat → Nat → List Char
  | 0, _ => []
  | fuel + 1, num =>
    if num = 0 then []
    else Nat.digitChar (num * 10 / den) :: fracDecAux den fuel (num * 10 % den)

/-- Decimal rendering of a rational.  Models the shortest-round-trip
formatting Go applies to `float64` values (`%v`/`%g` and JSON number
encoding): integral values are printed without a decimal point, other
values with their exact decimal expansion. -/
def goFormatNum (q : ℚ) : String :=
  if q.den = 1 then intDecimal q.num
  else
    (if q < 0 then "-" else "") ++
      natDecimal (q.num.natAbs / q.den) ++ "." ++
      String.mk (fracDecAux q.den 17 (q.num.natAbs % q.den))

mutual
/-- Models `fmt.Sprintf("%v", _)` on JSON-compatible values. -/
def goFormatValue : Value → String
  | .null => "<nil>"
  | .bool b => cond b "true" "false"
  | .str s => s
  | .num q => goFormatNum q
  | .arr xs => "[" ++ goJoin (goFormatList xs) " " ++ "]"
  | .obj kvs => "map[" ++ goJoin (goFormatPairs kvs) " " ++ "]"

def goFormatList : List Value → List String
  | [] => []
  | v :: rest => goFormatValue v :: goFormatList rest

def goFormatPairs : List (String × Value) → List String
  | [] => []
  | (k, v) :: rest => (k ++ ":" ++ goFormatValue v) :: goFormatPairs rest
end

/-! ## JSON encoding (Go `encoding/json`) -/

/-- JSON escaping of one character, as Go `encoding/json` does it
(including the HTML-safe escapes for `<`, `>`, `&`). -/
def jsonEscapeChar (c : Char) : String :=
  if c == '"' then "\\\""
  else if c == '\\' then "\\\\"
  else if c == '\n' then "\\n"
  else if c == '\r' then "\\r"
  else if c == '\t' then "\\t"
  else if c == '<' then "\\u003c"
  else if c == '>' then "\\u003e"
  else if c == '&' then "\\u0026"
  else if c.toNat < 32 then "\\u00" ++ String.mk [Nat.digitChar (c.toNat / 16), Nat.digitChar (c.toNat % 16)]
  else String.mk [c]

/-- JSON escaping of a string body. -/
def jsonEscape (s : String) : String :=
  concatStrings (s.data.map jsonEscapeChar)

/-- Key-ordering used by Go's `encoding/json` when marshalling a map:
keys are sorted.  Insertion sort by string order. -/
def insertByKey {α : Type} (kv : String × α) : List (String × α) → List (String × α)
  | [] => [kv]
  | kv' :: rest =>
    if kv.1 < kv'.1 then kv :: kv' :: rest else kv' :: insertByKey kv rest

/-- Sort an association list by key, modelling Go map marshalling order. -/
def sortByKey {α : Type} (l : List (String × α)) : List (String × α) :=
  l.foldr insertByKey []

mutual
/-- Models `json.Marshal` on JSON-compatible values.  `obj` nodes stand
for Go maps, whose keys `encoding/json` emits in sorted order; the caller
sorts with `sortByKey` before marshalling. -/
def goJsonMarshal : Value → String
  | .null => "null"
  | .bool b => cond b "true" "false"
  | .str s => "\"" ++ jsonEscape s ++ "\""
  | .num q => goFormatNum q
  | .arr xs => "[" ++ goJoin (goJsonList xs) "," ++ "]"
  | .obj kvs => "\x7b" ++ goJoin (goJsonPairs kvs) "," ++ "\x7d"

def goJsonList : List Value → List String
  | [] => []
  | v :: rest => goJsonMarshal v :: goJsonList rest

def goJsonPairs : List (String × Value) → List String
  | [] => []
  | (k, v) :: rest => ("\"" ++ jsonEscape k ++ "\":" ++ goJsonMarshal v) :: goJsonPairs rest
end

mutual
/-- Models `json.MarshalIndent(_, "", "  ")` on JSON-compatible values;
`ind` is the current indentation prefix. -/
def goJsonIndent (ind : String) : Value → String
  | .null => "null"
  | .bool b => cond b "true" "false"
  | .str s => "\"" ++ jsonEscape s ++ "\""
  | .num q => goFormatNum q
  | .arr [] => "[]"
  | .arr (x :: xs) =>
    "[\n" ++ goJoin (goJsonIndentList (ind ++ "  ") (x :: xs)) ",\n" ++ "\n" ++ ind ++ "]"
  | .obj [] => "\x7b\x7d"
  | .obj (kv :: kvs) =>
    "\x7b\n" ++ goJoin (goJsonIndentPairs (ind ++ "  ") (kv :: kvs)) ",\n" ++ "\n" ++ ind ++ "\x7d"

def goJsonIndentList (ind : String) : List Value → List String
  | [] => []
  | v :: rest => (ind ++ goJsonIndent ind v) :: goJsonIndentList ind rest

def goJsonIndentPairs (ind : String) : List (String × Value) → List String
  | [] => []
  | (k, v) :: rest =>
    (ind ++ "\"" ++ jsonEscape k ++ "\": " ++ goJsonIndent ind v) :: goJsonIndentPairs ind rest
end

/-- Models `json.MarshalIndent(args, "", "  ")` for an argument map. -/
def goJsonMarshalIndentObj (l : List (String × Value)) : String :=
  goJsonIndent "" (.obj (sortByKey l))

/-! ## Base64 (Go `encoding/base64.StdEncoding`) -/

/-- UTF-8 bytes of a character (the credentials the program encodes are
plain text; the full 1-4 byte encoding is given). -/
def utf8Bytes (c : Char) : List Nat :=
  let n := c.toNat
  if n < 0x80 then [n]
  else if n < 0x800 then [0xC0 + n / 64, 0x80 + n % 64]
  else if n < 0x10000 then [0xE0 + n / 4096, 0x80 + n / 64 % 64, 0x80 + n % 64]
  else [0xF0 + n / 262144, 0x80 + n / 4096 % 64, 0x80 + n / 64 % 64, 0x80 + n % 64]

/-- The base64 standard alphabet. -/
def base64Char (n : Nat) : Char :=
  if n < 26 then Char.ofNat (65 + n)
  else if n < 52 then Char.ofNat (97 + (n - 26))
  else if n < 62 then Char.ofNat (48 + (n - 52))
  else if n = 62 then '+'
  else '/'

/-- Base64 encoding of a byte list with `=` padding. -/
def base64Aux : List Nat → List Char
  | [] => []
  | [b] =>
    [base64Char (b / 4), base64Char (b % 4 * 16), '=', '=']
  | [b1, b2] =>
    [base64Char (b1 / 4), base64Char (b1 % 4 * 16 + b2 / 16), base64Char (b2 % 16 * 4), '=']
  | b1 :: b2 :: b3 :: rest =>
    base64Char (b1 / 4) :: base64Char (b1 % 4 * 16 + b2 / 16) ::
      base64Char (b2 % 16 * 4 + b3 / 64) :: base64Char (b3 % 64) :: base64Aux rest

/-- Models `base64.StdEncoding.EncodeToString([]byte(s))`. -/
def goBase64 (s : String) : String :=
  String.mk (base64Aux (s.data.flatMap utf8Bytes))

/-! ## Data model -/

/-- One operation parameter (`openapi3.Parameter`, the fields the modelled
code reads: `Name`, `In`, `Required`, and whether the value schema's
`Type` is the given primitive type). -/
structure Param where
  name : String
  location : String
  required : Bool
  /-- `p.Schema.Value.Type`, when a schema with a type is present
  (`none` models a `nil` schema or a schema without a type). -/
  schemaType : Option String
deriving DecidableEq, Repr

/-- `p.Schema != nil && p.Schema.Value != nil && p.Schema.Value.Type != nil
&& p.Schema.Value.Type.Is("integer")`. -/
def paramIsInteger (p : Param) : Bool :=
  p.schemaType == some "integer"

/-- A request body (`openapi3.RequestBody`): the `Required` flag and the
content table from media-type name to whether that entry carries a schema
(`mt.Schema != nil && mt.Schema.Value != nil`). -/
structure RequestBody where
  required : Bool
  content : List (String × Bool)
deriving DecidableEq, Repr

/-- One extracted operation (`OpenAPIOperation`).  A security requirement
alternative is the list of its scheme names (Go iterates the underlying
map; the embedding fixes the iteration order as the list order). -/
structure Operation where
  operationID : String
  method : String
  path : String
  parameters : List Param
  requestBody : Option RequestBody
  security : List (List String)
  summary : String
  description : String
  tags : List String

/-- A security scheme from the document's component table
(`openapi3.SecurityScheme`: `Type`, `Scheme`, `In`, `Name`). -/
structure SecurityScheme where
  stype : String
  scheme : String
  location : String
  name : String
deriving DecidableEq, Repr

/-- The part of the OpenAPI document the dispatcher reads:
`doc.Components.SecuritySchemes`. -/
structure Doc where
  securitySchemes : List (String × SecurityScheme)

/-- The process-environment credential channels consulted by the
authenticate step (`os.Getenv`; the empty string models an unset
variable). -/
structure Env where
  apiKey : String
  apiKeyHeader : String
  bearerToken : String
  basicAuth : String

/-! ## Name Escaper (`schema.go`) -/

/-- `escapeParameterName`: parameter names containing brackets have every
`[` and `]` replaced by `_` and get a trailing `_` marker. -/
def escapeParameterName (name : String) : String :=
  if !goContains name "[" && !goContains name "]" then name
  else
    let escaped := goReplaceAll (goReplaceAll name "[" "_") "]" "_"
    if goHasSuffix escaped "_" then escaped else escaped ++ "_"

/-- Association-list lookup (first match), the read operation of the Go
maps modelled below. -/
def lookupAL {α : Type} : List (String × α) → String → Option α
  | [], _ => none
  | (k, v) :: rest, key => if k == key then some v else lookupAL rest key

/-- Go map insertion `m[k] = v` (replacing any previous binding). -/
def mapSetAL {α : Type} (m : List (String × α)) (k : String) (v : α) : List (String × α) :=
  (k, v) :: m.filter (fun kv => !(kv.1 == k))

/-- `unescapeParameterName`: mapping-table hit if present, else the input
unchanged. -/
def unescapeParameterName (escaped : String) (originalNames : List (String × String)) : String :=
  match lookupAL originalNames escaped with
  | some original => original
  | none => escaped

/-- `buildParameterNameMapping`: table from escaped name to original name,
with an entry only when escaping changed the name.  Later parameters
overwrite earlier ones on collision (Go map assignment). -/
def buildParameterNameMapping (params : List Param) : List (String × String) :=
  params.foldl
    (fun mapping p =>
      let escaped := escapeParameterName p.name
      if escaped != p.name then mapSetAL mapping escaped p.name else mapping)
    []

/-! ## Tool Registrar tag filter (`register.go`) -/

/-- `filterByTag` from `RegisterOpenAPITools`.  An empty filter admits
every operation (this also covers `opts == nil`).  The Go loop body
`for _, tag := range op.Tags { return slices.Contains(opts.TagFilter, tag) }`
returns during its first iteration, so only the first tag is consulted;
the embedding preserves this verbatim. -/
def filterByTag (tagFilter : List String) (op : Operation) : Bool :=
  if tagFilter.length = 0 then true
  else
    match op.tags with
    | [] => false
    | tag :: _ => tagFilter.contains tag

/-- The tool-name accumulation of `RegisterOpenAPITools`: one tool per
operation passing the tag filter, with the optional name-formatting hook
applied, followed by the `externalDocs` meta-tool (when the document
declares external documentation and this is not a dry run) and the `info`
meta-tool (when the document has an info section and this is not a dry
run). -/
def registerOpToolNames (ops : List Operation) (tagFilter : List String)
    (nameFormat : Option (String → String)) (dryRun hasExternalDocs hasInfo : Bool) :
    List String :=
  (ops.foldl
      (fun acc op =>
        if filterByTag tagFilter op then
          acc ++ [(match nameFormat with | some f => f op.operationID | none => op.operationID)]
        else acc)
      []) ++
    (if hasExternalDocs && !dryRun then ["externalDocs"] else []) ++
    (if hasInfo && !dryRun then ["info"] else [])

/-! ## Validation schema nodes (`jsonschema.Schema` after JSON round-trip) -/

/-- One property schema as the dispatcher and the guidance generators see
it after `json.Unmarshal` of the assembled input schema: the fields read
via `prop["type"].(string)`, `prop["format"].(string)`,
`prop["description"].(string)`, `prop["enum"].([]any)`, `prop["example"]`
and `prop["items"].(map[string]any)`.  `none`/`[]` model an absent key (or
a value of the wrong dynamic type, which the `, ok` pattern treats the
same way). -/
inductive PropSchema where
  | mk :
    (ptype : Option String) →
    (pformat : Option String) →
    (pdescription : Option String) →
    (penum : List Value) →
    (pexample : Option Value) →
    (pitems : Option PropSchema) →
    PropSchema

def PropSchema.ptype : PropSchema → Option String
  | .mk t _ _ _ _ _ => t

def PropSchema.pformat : PropSchema → Option String
  | .mk _ f _ _ _ _ => f

def PropSchema.pdescription : PropSchema → Option String
  | .mk _ _ d _ _ _ => d

def PropSchema.penum : PropSchema → List Value
  | .mk _ _ _ e _ _ => e

def PropSchema.pexample : PropSchema → Option Value
  | .mk _ _ _ _ ex _ => ex

def PropSchema.pitems : PropSchema → Option PropSchema
  | .mk _ _ _ _ _ it => it

/-- The assembled input schema of one operation (`schemaObj` after
`json.Unmarshal(inputSchemaJSON, &schemaObj)`): its `properties` map and
`required` list.  The assembled schema's type is always `"object"`. -/
structure InputSchema where
  properties : List (String × PropSchema)
  required : List String

/-- The exact rational value of the Go numeric literal `123.45` (given in
normal form so that kernel evaluation works on it). -/
def q123_45 : ℚ := ⟨2469, 20, by decide, by decide⟩

/-- The exact rational value of the Go numeric literal `123`. -/
def q123 : ℚ := ⟨123, 1, by decide, by decide⟩

/-! ## Example-Value Rule (`generateExampleValue`, `register.go`) -/

/-- `generateExampleValue`: enum first, then a declared example, then
fixed type/format-derived defaults. -/
def generateExampleValue (prop : PropSchema) : Value :=
  match prop.penum with
  | e :: _ => e
  | [] =>
    match prop.pexample with
    | some ex => ex
    | none =>
      match prop with
      | .mk t _ _ _ _ it =>
        if t == some "string" then
          match prop.pformat with
          | some "email" => .str "user@example.com"
          | some "uri" => .str "https://example.com"
          | some "url" => .str "https://example.com"
          | some "date" => .str "2024-01-01"
          | some "date-time" => .str "2024-01-01T00:00:00Z"
          | some "uuid" => .str "123e4567-e89b-12d3-a456-426614174000"
          | _ => .str "example_string"
        else if t == some "number" then .num q123_45
        else if t == some "integer" then .num q123
        else if t == some "boolean" then .bool true
        else if t == some "array" then
          match it with
          | some items => .arr [generateExampleValue items]
          | none => .arr [.str "item1", .str "item2"]
        else if t == some "object" then .obj [("key", .str "value")]
        else .null

/-- The inline example-value switch of the schema-validation-failure
branch of `toolHandler` (`tool.go`): value synthesized per property when
building the retry suggestion.  It branches on the property's type only. -/
def retryExampleValue (prop : PropSchema) : Value :=
  match prop.ptype with
  | some "string" => .str "example"
  | some "number" => .num q123_45
  | some "integer" => .num q123
  | some "boolean" => .bool true
  | some "array" => .arr [.str "item1", .str "item2"]
  | some "object" => .obj [("key", .str "value")]
  | _ => .null

/-! ## Argument lookup and value formatting (`register.go`) -/

/-- Association-list lookup in the argument object. -/
def lookupArg : List (String × Value) → String → Option Value
  | [], _ => none
  | (k, v) :: rest, key => if k == key then some v else lookupArg rest key

/-- `getParameterValue`: the escaped name is tried first, then the
original name (the mapping argument is accepted but not consulted, as in
the source). -/
def getParameterValue (args : List (String × Value)) (paramName : String)
    (_paramNameMapping : List (String × String)) : Option Value :=
  match lookupArg args (escapeParameterName paramName) with
  | some v => some v
  | none => lookupArg args paramName

/-- `formatParameterValue`: integer-typed parameters are rendered via the
`int64` conversion (truncation) without decimals; everything else renders
via `fmt.Sprintf("%v", _)`.  JSON-decoded arguments carry numbers only as
`float64`, which the `num` case models; the Go `int…` cases coincide with
it and the `default` case is the `%v` fallback. -/
def formatParameterValue (val : Value) (isInteger : Bool) : String :=
  if isInteger then
    match val with
    | .num q => intDecimal (ratTrunc q)
    | v => goFormatValue v
  else goFormatValue val

/-! ## Request construction (`toolHandler`, `tool.go`) -/

/-- An outbound HTTP request: method, full URL, header table
(`Header.Set` replaces; keys as written by the source) and body bytes. -/
structure HTTPRequest where
  method : String
  url : String
  headers : List (String × String)
  body : String
deriving DecidableEq, Repr

/-- `Header.Set`: replaces any existing value of the key. -/
def setHeader (req : HTTPRequest) (k v : String) : HTTPRequest :=
  { req with headers := (k, v) :: req.headers.filter (fun kv => !(kv.1 == k)) }

/-- `Header.Get` (empty result modelled as `none`). -/
def getHeader (req : HTTPRequest) (k : String) : Option String :=
  lookupAL req.headers k

/-- An upstream HTTP response as the dispatcher reads it: status code,
`Content-Type`, `Content-Disposition` and body. -/
structure HTTPResponse where
  status : Nat
  contentType : String
  contentDisposition : String
  body : String
deriving DecidableEq, Repr

/-- Path-template substitution: every path-location parameter with a
supplied argument has its `{name}` placeholder replaced by the formatted
value. -/
def buildPath (op : Operation) (args : List (String × Value))
    (mapping : List (String × String)) : String :=
  op.parameters.foldl
    (fun path p =>
      if p.location == "path" then
        match getParameterValue args p.name mapping with
        | some val =>
          goReplaceAll path ("\x7b" ++ p.name ++ "\x7d") (formatParameterValue val (paramIsInteger p))
        | none => path
      else path)
    op.path

/-- Query-parameter collection (`url.Values.Set`). -/
def buildQueryPairs (op : Operation) (args : List (String × Value))
    (mapping : List (String × String)) : List (String × String) :=
  op.parameters.foldl
    (fun q p =>
      if p.location == "query" then
        match getParameterValue args p.name mapping with
        | some val =>
          (p.name, formatParameterValue val (paramIsInteger p)) ::
            q.filter (fun kv => !(kv.1 == p.name))
        | none => q
      else q)
    []

/-- `url.Values.Encode`: `k=v` pairs joined by `&` in sorted key order
(the percent-escaping the external `net/url` library would apply to
reserved characters is not modelled; the values exercised here are
URL-safe). -/
def encodeQuery (q : List (String × String)) : String :=
  goJoin ((sortByKey q).map (fun kv => kv.1 ++ "=" ++ kv.2)) "&"

/-- Base-URL choice and URL assembly: one base URL is picked by the
externally supplied random index (`rand.Intn(len(baseURLs))` modelled as
`ridx % length`), joined with the substituted path (`url.JoinPath`), and
the encoded query is appended when non-empty. -/
def buildFullURL (op : Operation) (args : List (String × Value))
    (baseURLs : List String) (ridx : Nat) (mapping : List (String × String)) : String :=
  let fullURL := baseURLs.getD (ridx % baseURLs.length) "" ++ buildPath op args mapping
  let query := buildQueryPairs op args mapping
  if query.length > 0 then fullURL ++ "?" ++ encodeQuery query else fullURL

/-- Modelled from the spec: the helper `getContentByType` is not among
the provided sources; per the spec, request-body media types are matched
on the base type only, ignoring parameters after a `;`. -/
def baseMediaType (mt : String) : String :=
  match goSplit mt ";" with
  | base :: _ :: _ => goTrimSpace base
  | _ => mt

/-- Modelled from the spec: `getContentByType` returns the content entry
whose base media type equals the target (the entry is whether a schema is
attached). -/
def getContentByType (content : List (String × Bool)) (target : String) : Option Bool :=
  (content.find? (fun e => baseMediaType e.1 == target)).map (fun e => e.2)

/-- The request-body media-type resolution of `toolHandler`:
`application/json` first, then `application/vnd.api+json`. -/
def requestBodyMedia (op : Operation) : Option (String × Bool) :=
  match op.requestBody with
  | none => none
  | some rb =>
    match getContentByType rb.content "application/json" with
    | some hasSchema => some ("application/json", hasSchema)
    | none =>
      match getContentByType rb.content "application/vnd.api+json" with
      | some hasSchema => some ("application/vnd.api+json", hasSchema)
      | none => none

/-- Body construction: the `requestBody` argument is re-serialized as the
body only when a JSON-compatible media type with a schema is declared and
the argument is present and non-nil.  Returns the body and the request
content type. -/
def buildBody (op : Operation) (args : List (String × Value)) : String × String :=
  match requestBodyMedia op with
  | none => ("", "")
  | some (ct, hasSchema) =>
    if hasSchema then
      match lookupArg args "requestBody" with
      | some .null => ("", ct)
      | some v => (goJsonMarshal v, ct)
      | none => ("", ct)
    else ("", ct)

/-! ## Authentication (`fulfillSecurity`, `tool.go`) -/

/-- Appending an api-key query parameter to an already-encoded URL.
Models `q := URL.Query(); q.Set(name, key); URL.RawQuery = q.Encode()`
(the re-sort and duplicate replacement the external `net/url` library
performs are not modelled; no claim exercises this path). -/
def appendQueryParam (url name val : String) : String :=
  if goContains url "?" then url ++ "&" ++ name ++ "=" ++ val
  else url ++ "?" ++ name ++ "=" ++ val

/-- `fulfillSecurity`: attempts one named scheme against the request,
returning the (possibly credential-carrying) request and whether the
scheme was satisfied. -/
def fulfillSecurity (secName : String) (req : HTTPRequest) (doc : Doc) (env : Env) :
    HTTPRequest × Bool :=
  match lookupAL doc.securitySchemes secName with
  | none => (req, false)
  | some secScheme =>
    if secScheme.stype == "http" then
      if secScheme.scheme == "bearer" then
        if env.bearerToken != "" then
          (setHeader req "Authorization" ("Bearer " ++ env.bearerToken), true)
        else (req, false)
      else if secScheme.scheme == "basic" then
        if env.basicAuth != "" then
          (setHeader req "Authorization" ("Basic " ++ goBase64 env.basicAuth), true)
        else (req, false)
      else (req, false)
    else if secScheme.stype == "apiKey" then
      if secScheme.location == "header" && secScheme.name != "" then
        if env.apiKey != "" then (setHeader req secScheme.name env.apiKey, true)
        else (req, false)
      else if secScheme.location == "query" && secScheme.name != "" then
        if env.apiKey != "" then
          ({ req with url := appendQueryParam req.url secScheme.name env.apiKey }, true)
        else (req, false)
      else if secScheme.location == "cookie" && secScheme.name != "" then
        if env.apiKey != "" then
          let cookie := (getHeader req "Cookie").getD ""
          let cookie := if cookie != "" then cookie ++ "; " else cookie
          (setHeader req "Cookie" (cookie ++ secScheme.name ++ "=" ++ env.apiKey), true)
        else (req, false)
      else (req, false)
    else if secScheme.stype == "oauth2" then
      if env.bearerToken != "" then
        (setHeader req "Authorization" ("Bearer " ++ env.bearerToken), true)
      else (req, false)
    else (req, false)

/-- The nested security loop of `toolHandler`:
`securitySatisfied = fulfillSecurity(secName, httpReq, doc)` is executed
for every scheme name of every requirement alternative, so the flag holds
only the outcome of the last attempt.  Go iterates each alternative's
scheme-name map in unspecified order; the embedding iterates the
alternative's list in order. -/
def applySecurity (doc : Doc) (env : Env) (alts : List (List String))
    (req : HTTPRequest) : HTTPRequest × Bool :=
  alts.foldl
    (fun acc alt => alt.foldl (fun acc2 secName => fulfillSecurity secName acc2.1 doc env) acc)
    (req, false)

/-- The legacy environment-credential fallback applied when no security
scheme was satisfied. -/
def applyFallback (env : Env) (req : HTTPRequest) : HTTPRequest :=
  let req1 :=
    if env.apiKey != "" && env.apiKeyHeader != "" then setHeader req env.apiKeyHeader env.apiKey
    else req
  if env.bearerToken != "" then setHeader req1 "Authorization" ("Bearer " ++ env.bearerToken)
  else if env.basicAuth != "" then
    setHeader req1 "Authorization" ("Basic " ++ goBase64 env.basicAuth)
  else req1

/-- Full request assembly of `toolHandler`, in source order: method and
body, `Content-Type` (only with a body), `Accept`, per-operation security,
legacy fallback when unsatisfied, header parameters, cookie parameters. -/
def buildHTTPRequest (op : Operation) (args : List (String × Value)) (doc : Doc)
    (env : Env) (fullURL : String) : HTTPRequest :=
  let mapping := buildParameterNameMapping op.parameters
  let bodyCT := buildBody op args
  let req0 : HTTPRequest := { method := goToUpper op.method, url := fullURL, headers := [], body := bodyCT.1 }
  let req1 :=
    if bodyCT.1.length > 0 && bodyCT.2 != "" then setHeader req0 "Content-Type" bodyCT.2
    else req0
  let req2 := setHeader req1 "Accept" "application/json, application/vnd.api+json"
  let sec := applySecurity doc env op.security req2
  let req3 := if sec.2 then sec.1 else applyFallback env sec.1
  let req4 :=
    op.parameters.foldl
      (fun r p =>
        if p.location == "header" then
          match getParameterValue args p.name mapping with
          | some val => setHeader r p.name (formatParameterValue val (paramIsInteger p))
          | none => r
        else r)
      req3
  let cookiePairs :=
    op.parameters.foldl
      (fun cp p =>
        if p.location == "cookie" then
          match getParameterValue args p.name mapping with
          | some val => cp ++ [p.name ++ "=" ++ formatParameterValue val (paramIsInteger p)]
          | none => cp
        else cp)
      []
  if cookiePairs.length > 0 then setHeader req4 "Cookie" (goJoin cookiePairs "; ") else req4

/-! ## Error Guidance Generator (`register.go`) -/

/- `hasDateTimeParameters` is not modelled (it gates only the timestamp
resource).  The guidance generators below are transcribed from
`register.go`. -/

/-- The numbered list of security-requirement alternatives in the 401/403
guidance: `"%d. "` then the alternative's scheme names joined by `" + "`. -/
def secAltLines : List (List String) → Nat → String
  | [], _ => ""
  | alt :: rest, i =>
    natDecimal (i + 1) ++ ". " ++ goJoin alt " + " ++ "\n" ++ secAltLines rest (i + 1)

/-- `generateAI401403ErrorResponse`. -/
def generateAI401403ErrorResponse (op : Operation) (_schema : InputSchema)
    (_args : List (String × Value)) (responseBody : String) (statusCode : Nat) : String :=
  (if statusCode = 401 then
    "AUTHENTICATION REQUIRED (401): Your request lacks valid authentication credentials.\n\n"
   else
    "AUTHORIZATION FAILED (403): You don\x27t have permission to access this resource.\n\n") ++
  "OPERATION: " ++ op.operationID ++
  (if op.summary != "" then " - " ++ op.summary else "") ++ "\n\n" ++
  "AUTHENTICATION METHODS:\n" ++
  (if op.security.length > 0 then
    "This operation requires one of the following authentication methods:\n" ++
      secAltLines op.security 0
   else
    "• Check the OpenAPI spec for security requirements\n" ++
    "• This operation may require global authentication\n") ++
  "\n" ++
  "AUTHENTICATION SETUP:\n" ++
  "Set one of these environment variables based on your API:\n\n" ++
  "• API Key Authentication:\n" ++
  "  export API_KEY=\"your-api-key-here\"\n" ++
  "  # Common header names: X-API-Key, Authorization, Api-Key\n\n" ++
  "• Bearer Token Authentication:\n" ++
  "  export BEARER_TOKEN=\"your-bearer-token-here\"\n" ++
  "  # Sets Authorization: Bearer <token>\n\n" ++
  "• Basic Authentication:\n" ++
  "  export BASIC_AUTH=\"username:password\"\n" ++
  "  # Sets Authorization: Basic <base64-encoded-credentials>\n\n" ++
  (if responseBody != "" then "SERVER ERROR DETAILS:\n" ++ responseBody ++ "\n\n" else "") ++
  "TROUBLESHOOTING STEPS:\n" ++
  (if statusCode = 401 then
    "1. Verify you have set the correct authentication environment variable\n" ++
    "2. Check that your API key/token is valid and not expired\n" ++
    "3. Ensure the authentication method matches what the API expects\n" ++
    "4. Test your credentials with a simple API call (like GET /health)\n" ++
    "5. Check the API documentation for required authentication format\n" ++
    "6. Verify the API endpoint URL is correct\n"
   else
    "1. Verify your account has permission to access this resource\n" ++
    "2. Check if your API key has the required scopes/permissions\n" ++
    "3. Ensure you\x27re accessing the correct resource ID/path\n" ++
    "4. Contact the API provider to verify your account permissions\n" ++
    "5. Check if there are rate limits or usage restrictions\n" ++
    "6. Verify your subscription/plan includes access to this endpoint\n")

/-- The per-path-parameter line of the 404 guidance: the parameter's name
with either the argument value supplied under that name or the literal
`NOT_PROVIDED`. -/
def param404Line (args : List (String × Value)) (pname : String) : String :=
  "• " ++ pname ++ ": " ++
    (match lookupArg args pname with
     | some v => goFormatValue v
     | none => "NOT_PROVIDED") ++ "\n"

/-- The names of the operation's path-location parameters, in declaration
order. -/
def pathParamNames (op : Operation) : List String :=
  (op.parameters.filter (fun p => p.location == "path")).map (fun p => p.name)

/-- `generateAI404ErrorResponse` (its `inputSchemaJSON` argument is not
read by the source either). -/
def generateAI404ErrorResponse (op : Operation) (_schema : InputSchema)
    (args : List (String × Value)) (responseBody : String) : String :=
  "RESOURCE NOT FOUND (404): The requested resource could not be found.\n\n" ++
  "OPERATION: " ++ op.operationID ++
  (if op.summary != "" then " - " ++ op.summary else "") ++ "\n" ++
  "PATH: " ++ goToUpper op.method ++ " " ++ op.path ++ "\n\n" ++
  (if args.length > 0 then
    "YOUR CURRENT ARGUMENTS:\n" ++ goJsonMarshalIndentObj args ++ "\n\n"
   else "") ++
  (if (pathParamNames op).length > 0 then
    "PATH PARAMETERS IN THIS ENDPOINT:\n" ++
      concatStrings ((pathParamNames op).map (param404Line args)) ++ "\n"
   else "") ++
  (if responseBody != "" then "SERVER ERROR DETAILS:\n" ++ responseBody ++ "\n\n" else "") ++
  "TROUBLESHOOTING STEPS:\n" ++
  "1. Verify all path parameters are correct and exist:\n" ++
  (if (pathParamNames op).length > 0 then
    concatStrings
      ((pathParamNames op).map (fun param => "   - Check that " ++ param ++ " exists and is accessible\n"))
   else "   - Verify the endpoint path is correct\n") ++
  "2. Ensure you\x27re using the correct resource identifiers\n" ++
  "3. Check if the resource was recently deleted or moved\n" ++
  "4. Verify you have permission to access this resource\n" ++
  "5. Try listing resources first to find valid identifiers\n" ++
  "6. Check the API documentation for correct endpoint paths\n" ++
  "7. Ensure you\x27re using the correct API base URL\n"

/-- Adds the Example-Value-Rule value of each required property present
in the properties table (`exampleArgs[reqStr] = generateExampleValue(prop)`). -/
def addRequiredExamples (properties : List (String × PropSchema)) (required : List String)
    (ex : List (String × Value)) : List (String × Value) :=
  required.foldl
    (fun ex reqStr =>
      match lookupAL properties reqStr with
      | some prop => mapSetAL ex reqStr (generateExampleValue prop)
      | none => ex)
    ex

/-- Adds up to `limit` not-yet-present optional properties with their
Example-Value-Rule values, in property-table order. -/
def addOptionalExamples (properties : List (String × PropSchema)) (limit : Nat)
    (ex0 : List (String × Value)) : List (String × Value) :=
  (properties.foldl
      (fun (acc : List (String × Value) × Nat) kp =>
        if (lookupAL acc.1 kp.1).isNone && acc.2 < limit then
          (mapSetAL acc.1 kp.1 (generateExampleValue kp.2), acc.2 + 1)
        else acc)
      (ex0, 0)).1

/-- The per-parameter detail line of the 400 guidance's
"All available parameters" list. -/
def param400Line (schema : InputSchema) (kp : String × PropSchema) : String :=
  "  - " ++ kp.1 ++
  (match kp.2.ptype with
   | some typeStr => " (" ++ typeStr ++ ")"
   | none => "") ++
  (if schema.required.contains kp.1 then " [REQUIRED]" else "") ++
  (match kp.2.pdescription with
   | some desc => if desc != "" then ": " ++ desc else ""
   | none => "") ++
  (match kp.2.penum with
   | [] => ""
   | e :: rest => " | Valid values: " ++ goJoin ((e :: rest).map goFormatValue) ", ") ++
  "\n"

/-- The per-required-parameter line shared by the 400 guidance's
"Required parameters" list (and, with `" [MANDATORY]"` appended, by the
5xx guidance). -/
def requiredParamLine (properties : List (String × PropSchema)) (tail : String)
    (reqStr : String) : String :=
  match lookupAL properties reqStr with
  | some prop =>
    "  - " ++ reqStr ++
    (match prop.ptype with
     | some typeStr => " (" ++ typeStr ++ ")"
     | none => "") ++
    (match prop.pdescription with
     | some desc => if desc != "" then ": " ++ desc else ""
     | none => "") ++
    tail ++ "\n"
  | none => ""

/-- `generateAI400ErrorResponse`. -/
def generateAI400ErrorResponse (op : Operation) (schema : InputSchema)
    (args : List (String × Value)) (responseBody : String) : String :=
  "BAD REQUEST (400): The API call failed due to incorrect or invalid parameters.\n\n" ++
  "OPERATION: " ++ op.operationID ++
  (if op.summary != "" then " - " ++ op.summary else "") ++ "\n" ++
  (if op.description != "" then "DESCRIPTION: " ++ op.description ++ "\n" else "") ++
  "\n" ++
  (if schema.properties.length > 0 then
    "PARAMETER REQUIREMENTS:\n" ++
    (if schema.required.length > 0 then
      "• Required parameters:\n" ++
        concatStrings (schema.required.map (requiredParamLine schema.properties "")) ++ "\n"
     else "") ++
    "• All available parameters:\n" ++
      concatStrings (schema.properties.map (param400Line schema)) ++ "\n"
   else "") ++
  (if args.length > 0 then
    "YOUR CURRENT ARGUMENTS:\n" ++ goJsonMarshalIndentObj args ++ "\n\n"
   else "") ++
  (if responseBody != "" then "SERVER ERROR DETAILS:\n" ++ responseBody ++ "\n\n" else "") ++
  "EXAMPLE CORRECT USAGE:\n" ++
  "call " ++ op.operationID ++ " " ++
    goJsonIndent ""
      (.obj (sortByKey (addOptionalExamples schema.properties 3
        (addRequiredExamples schema.properties schema.required [])))) ++ "\n\n" ++
  "TROUBLESHOOTING STEPS:\n" ++
  "1. Verify all required parameters are provided\n" ++
  "2. Check parameter types match the schema (string, number, boolean, etc.)\n" ++
  "3. Ensure enum values are from the allowed list\n" ++
  "4. Validate parameter formats (dates, emails, URLs, etc.)\n" ++
  "5. Check for missing or incorrectly named parameters\n" ++
  "6. Review the server error details above for specific validation failures\n"

/-- `generateAI5xxErrorResponse`.  The mixed-case `TROUBLESHOoting`
heading is verbatim from the source. -/
def generateAI5xxErrorResponse (op : Operation) (schema : InputSchema)
    (args : List (String × Value)) (responseBody : String) (statusCode : Nat) : String :=
  "SERVER ERROR (" ++ natDecimal statusCode ++ "): The server encountered an error processing your request.\n\n" ++
  "OPERATION: " ++ op.operationID ++
  (if op.summary != "" then " - " ++ op.summary else "") ++ "\n\n" ++
  (if statusCode = 500 then
    "ERROR TYPE: Internal Server Error\n" ++
    "This indicates a problem with the server\x27s code or configuration.\n\n"
   else if statusCode = 502 then
    "ERROR TYPE: Bad Gateway\n" ++
    "The server received an invalid response from an upstream server.\n\n"
   else if statusCode = 503 then
    "ERROR TYPE: Service Unavailable\n" ++
    "The server is temporarily unable to handle the request.\n\n"
   else if statusCode = 504 then
    "ERROR TYPE: Gateway Timeout\n" ++
    "The server didn\x27t receive a timely response from an upstream server.\n\n"
   else
    "ERROR TYPE: Server Error (" ++ natDecimal statusCode ++ ")\n" ++
    "An unexpected server-side error occurred.\n\n") ++
  (if responseBody != "" then "SERVER ERROR DETAILS:\n" ++ responseBody ++ "\n\n" else "") ++
  (if args.length > 0 then
    "YOUR REQUEST DETAILS:\n" ++ goJsonMarshalIndentObj args ++ "\n\n"
   else "") ++
  "IMMEDIATE ACTIONS:\n" ++
  (if statusCode = 500 then
    "1. Retry the request after a short delay (server issue)\n" ++
    "2. Check if the request data is valid and within expected limits\n" ++
    "3. Report the error to the API provider with request details\n"
   else if statusCode = 502 || statusCode = 503 || statusCode = 504 then
    "1. Wait and retry after a few seconds (temporary issue)\n" ++
    "2. Check the API status page for known outages\n" ++
    "3. Implement exponential backoff for retries\n"
   else
    "1. Retry the request after a brief delay\n" ++
    "2. Check if this is a known issue with the API\n") ++
  "\nTROUBLESHOoting STEPS:\n" ++
  "1. Verify your request parameters are valid and properly formatted\n" ++
  "2. Check for any size limits on request data\n" ++
  "3. Ensure you\x27re not hitting rate limits\n" ++
  "4. Try with a simpler request to isolate the issue\n" ++
  "5. Check the API\x27s status page or documentation for known issues\n" ++
  "6. Monitor if the error persists or is intermittent\n" ++
  "7. Contact the API provider\x27s support with error details\n" ++
  "\nRETRY STRATEGY:\n" ++
  "• Wait 1-2 seconds and retry once\n" ++
  "• If it fails again, wait longer (exponential backoff)\n" ++
  "• Maximum 3-5 retry attempts\n" ++
  "• Report persistent errors to the API provider\n" ++
  (if schema.properties.length > 0 then
    "\nTOOL USAGE INFORMATION:\n" ++
    "Tool Name: " ++ op.operationID ++ "\n" ++
    (if schema.required.length > 0 then
      "Required Parameters (mandatory for all calls):\n" ++
        concatStrings (schema.required.map (requiredParamLine schema.properties " [MANDATORY]"))
     else "") ++
    "\nExample Usage (retry with these correct parameters):\n" ++
    "call " ++ op.operationID ++ " " ++
      goJsonIndent ""
        (.obj (sortByKey (addOptionalExamples schema.properties 2
          (addRequiredExamples schema.properties schema.required [])))) ++ "\n"
   else "")

/-! ## Request Dispatcher (`toolHandler`, `tool.go`) -/

/-- One violation reported by the external JSON-Schema validator, as the
dispatcher consumes it: the violation type (`verr.Type()`), the
`Details()["property"]` entry for `required` violations, and the rendered
message (`verr.String()`), which the dispatcher treats as opaque text. -/
structure VErr where
  vtype : String
  property : Option String
  msg : String
deriving DecidableEq, Repr

/-- The contract of the external validator
(`gojsonschema.Validate`): a hard failure (`err != nil`), an invalid
document with its violation list, or success. -/
inductive ValidationOutcome where
  | ok : ValidationOutcome
  | invalid : List VErr → ValidationOutcome
  | failure : String → ValidationOutcome

/-- A tool-call result (`mcp.CallToolResult` with one text content item:
its content type, text and error flag). -/
structure McpResult where
  ctype : String
  text : String
  isError : Bool
deriving DecidableEq, Repr

/-- A plain text result. -/
def mkTextResult (t : String) : McpResult :=
  { ctype := "text", text := t, isError := false }

/-- `mcp.NewToolResultError`. -/
def mkErrorResult (t : String) : McpResult :=
  { ctype := "text", text := t, isError := true }

/-- The per-violation message synthesis of the validation-failure branch
(the `switch verr.Type()` of `toolHandler`). -/
def validationErrMsg (properties : List (String × PropSchema)) (verr : VErr) : String :=
  if verr.vtype == "required" then
    match verr.property with
    | some missing =>
      (match lookupAL properties missing with
       | some prop =>
         let desc := prop.pdescription.getD ""
         let typeStr := prop.ptype.getD ""
         let info := if desc != "" then desc else ""
         let info :=
           if typeStr != "" then (if info != "" then info ++ ", " else info) ++ "type: " ++ typeStr
           else info
         if info != "" then
           "Missing required parameter: \x27" ++ missing ++ "\x27 (" ++ info ++ "). Please provide this parameter."
         else
           "Missing required parameter: \x27" ++ missing ++ "\x27"
       | none => "Missing required parameter: \x27" ++ missing ++ "\x27")
    | none => ""
  else if verr.vtype == "invalid_type" then verr.msg
  else if verr.vtype == "enum" then verr.msg
  else if verr.vtype == "invalid_union" || verr.vtype == "one_of" || verr.vtype == "any_of" then
    "Invalid value. " ++ verr.msg
  else verr.msg

/-- The retry suggestion of the validation-failure branch: one example
value per schema property from the inline type switch, marshalled (Go map
marshalling sorts the keys). -/
def retrySuggestion (name : String) (schema : InputSchema) : String :=
  "Try again with: call " ++ name ++ " " ++
    goJsonMarshal (.obj (sortByKey (schema.properties.map (fun kp => (kp.1, retryExampleValue kp.2)))))

/-- The complete error text of the validation-failure branch: the
accumulated violation messages (trimmed) and the retry suggestion. -/
def validationFailureText (name : String) (schema : InputSchema) (errs : List VErr) : String :=
  goTrimSpace
      (concatStrings
        (errs.map (fun verr =>
          let m := validationErrMsg schema.properties verr
          if m != "" then m ++ "\n" else ""))) ++
    "\n\n" ++ retrySuggestion name schema

/-- Content-type bucketing: JSON. -/
def isJSONContentType (ct : String) : Bool :=
  goHasPrefix ct "application/json" || goHasPrefix ct "application/vnd.api+json"

/-- Content-type bucketing: text. -/
def isTextContentType (ct : String) : Bool :=
  goHasPrefix ct "text/"

/-- Content-type bucketing: binary is neither JSON nor text-prefixed. -/
def isBinaryContentType (ct : String) : Bool :=
  !isJSONContentType ct && !isTextContentType ct

/-- Abridged model of the external `net/http.StatusText` table (the codes
exercised by this development; unknown codes give `""` as in the
library). -/
def goStatusText (code : Nat) : String :=
  if code = 200 then "OK"
  else if code = 201 then "Created"
  else if code = 204 then "No Content"
  else if code = 400 then "Bad Request"
  else if code = 401 then "Unauthorized"
  else if code = 403 then "Forbidden"
  else if code = 404 then "Not Found"
  else if code = 409 then "Conflict"
  else if code = 429 then "Too Many Requests"
  else if code = 500 then "Internal Server Error"
  else if code = 502 then "Bad Gateway"
  else if code = 503 then "Service Unavailable"
  else if code = 504 then "Gateway Timeout"
  else ""

/-- Filename extraction from `Content-Disposition`
(`strings.Split(cd, "filename=")`, second piece, quotes trimmed; default
`"file"`). -/
def extractFileName (cd : String) : String :=
  if cd != "" then
    match goSplit cd "filename=" with
    | _ :: p1 :: _ => goTrimQuotes p1
    | _ => "file"
  else "file"

/-- Status-class dispatch to the Error Guidance Generator (the
`if`-chain over `resp.StatusCode` in `toolHandler`). -/
def errorSuggestion (op : Operation) (schema : InputSchema)
    (args : List (String × Value)) (resp : HTTPResponse) : String :=
  if resp.status = 401 || resp.status = 403 then
    generateAI401403ErrorResponse op schema args resp.body resp.status
  else if resp.status = 404 then
    generateAI404ErrorResponse op schema args resp.body
  else if resp.status = 400 then
    generateAI400ErrorResponse op schema args resp.body
  else if 500 ≤ resp.status then
    generateAI5xxErrorResponse op schema args resp.body resp.status
  else
    "Check the input parameters, authentication, and consult the tool schema. See the OpenAPI documentation for more details."

/-- The structured-object error result for a binary non-2xx response
(object keys listed in the sorted order Go map marshalling produces). -/
def binaryErrorResult (op : Operation) (suggestion : String) (resp : HTTPResponse) : McpResult :=
  let opSummary := if op.summary == "" then op.description else op.summary
  { ctype := "json"
    text :=
      goJsonIndent ""
        (.obj
          [("error",
            .obj
              [("code", .str "http_error"),
               ("details", .str "Binary response (see file_base64)"),
               ("file_base64", .str (goBase64 resp.body)),
               ("file_name", .str (extractFileName resp.contentDisposition)),
               ("http_status", .num resp.status),
               ("message", .str (goStatusText resp.status ++ " (HTTP " ++ natDecimal resp.status ++ ")")),
               ("mime_type", .str resp.contentType),
               ("operation",
                .obj
                  [("description", .str op.description),
                   ("id", .str op.operationID),
                   ("summary", .str opSummary)]),
               ("suggestion", .str suggestion)]),
           ("type", .str "api_response")])
    isError := true }

/-- The text error result for a non-binary non-2xx response. -/
def textErrorResult (op : Operation) (suggestion : String) (fullURL : String)
    (resp : HTTPResponse) : McpResult :=
  let opSummary := if op.summary == "" then op.description else op.summary
  mkErrorResult
    ("HTTP " ++ op.method ++ " " ++ fullURL ++ "\nError: " ++ goStatusText resp.status ++
      " (HTTP " ++ natDecimal resp.status ++ ")" ++
      (if resp.body.length > 0 then "\nDetails: " ++ resp.body else "") ++
      (if suggestion != "" then "\nSuggestion: " ++ suggestion else "") ++
      "\nOperation: " ++ op.operationID ++ " (" ++ opSummary ++ ")")

/-- Non-2xx handling: guidance keyed by status class, then a structured
binary object or a text error embedding the guidance, the raw body and
the operation identity. -/
def nonSuccessResult (op : Operation) (schema : InputSchema)
    (args : List (String × Value)) (fullURL : String) (resp : HTTPResponse) : McpResult :=
  let suggestion := errorSuggestion op schema args resp
  if isBinaryContentType resp.contentType then binaryErrorResult op suggestion resp
  else textErrorResult op suggestion fullURL resp

/-- The structured-object success result for a binary 2xx response. -/
def binarySuccessResult (op : Operation) (resp : HTTPResponse) : McpResult :=
  { ctype := "json"
    text :=
      goJsonIndent ""
        (.obj
          [("file_base64", .str (goBase64 resp.body)),
           ("file_name", .str (extractFileName resp.contentDisposition)),
           ("http_status", .num resp.status),
           ("mime_type", .str resp.contentType),
           ("operation",
            .obj
              [("description", .str op.description),
               ("id", .str op.operationID),
               ("summary", .str op.summary)]),
           ("type", .str "api_response")])
    isError := false }

/-- The fixed success envelope:
`HTTP <method> <url>`, `Status: <code>`, `Response:`, then the raw body
(the method is printed as stored on the operation, lower-case). -/
def envelopeText (op : Operation) (fullURL : String) (resp : HTTPResponse) : String :=
  "HTTP " ++ op.method ++ " " ++ fullURL ++ "\nStatus: " ++ natDecimal resp.status ++
    "\nResponse:\n" ++ resp.body

/-- `args["stream"] == true`: the key is present and its value is the
boolean `true`. -/
def streamRequested (args : List (String × Value)) : Bool :=
  match lookupArg args "stream" with
  | some (.bool true) => true
  | _ => false

/-- PUT/POST/DELETE, on the upper-cased method. -/
def isMutatingMethod (m : String) : Bool :=
  m == "PUT" || m == "POST" || m == "DELETE"

/-- The confirmation-request result returned by the mutating-action gate. -/
def confirmationResult (name : String) : McpResult :=
  mkTextResult
    ("⚠️  CONFIRMATION REQUIRED\n\nAction: " ++ name ++
      "\nThis action is irreversible. Proceed?\n\nTo confirm, retry the call with \x7b\"__confirmed\": true\x7d added to your arguments.")

/-- Response classification of `toolHandler`, after the transport call:
non-2xx guidance, binary success objects, the success envelope, the
`stream` formatting branch, and the mutating-action confirmation gate
(which tests only for presence of the `__confirmed` key). -/
def classifyResponse (confirmDangerousActions : Bool) (name : String) (op : Operation)
    (schema : InputSchema) (args : List (String × Value)) (fullURL : String)
    (resp : HTTPResponse) : McpResult :=
  if resp.status < 200 ∨ 300 ≤ resp.status then
    nonSuccessResult op schema args fullURL resp
  else if isBinaryContentType resp.contentType then
    binarySuccessResult op resp
  else
    let respText := envelopeText op fullURL resp
    if streamRequested args then mkTextResult respText
    else if confirmDangerousActions && isMutatingMethod (goToUpper op.method) then
      if (lookupArg args "__confirmed").isNone then confirmationResult name
      else mkTextResult respText
    else mkTextResult respText

/-- The request dispatcher (`toolHandler`'s returned closure):
validate, build the request, authenticate, send through the injectable
transport, classify.  The external validator, the transport and the
environment are parameters; `ridx` models the call's random base-URL
draw. -/
def dispatch (validator : List (String × Value) → ValidationOutcome)
    (transport : HTTPRequest → HTTPResponse) (confirmDangerousActions : Bool)
    (name : String) (op : Operation) (schema : InputSchema) (doc : Doc) (env : Env)
    (baseURLs : List String) (ridx : Nat) (args : List (String × Value)) : McpResult :=
  match validator args with
  | .failure e => mkErrorResult ("Validation error: " ++ e)
  | .invalid errs => mkErrorResult (validationFailureText name schema errs)
  | .ok =>
    let mapping := buildParameterNameMapping op.parameters
    let fullURL := buildFullURL op args baseURLs ridx mapping
    let resp := transport (buildHTTPRequest op args doc env fullURL)
    classifyResponse confirmDangerousActions name op schema args fullURL resp

/-! ## Helper notions for the theorems -/

/-- `a` occurs as a contiguous substring of `b`. -/
def StrSub (a b : String) : Prop :=
  ∃ pre post, b.data = pre ++ a.data ++ post

lemma strSub_self (a : String) : StrSub a a :=
  ⟨[], [], by simp⟩

lemma strSub_append_left {a c : String} (b : String) (h : StrSub a c) :
    StrSub a (b ++ c) := by
  obtain ⟨pre, post, hpp⟩ := h
  exact ⟨b.data ++ pre, post, by simp [String.data_append, hpp]⟩

lemma strSub_append_right {a b : String} (c : String) (h : StrSub a b) :
    StrSub a (b ++ c) := by
  obtain ⟨pre, post, hpp⟩ := h
  exact ⟨pre, post ++ c.data, by simp [String.data_append, hpp]⟩

lemma strSub_of_mem_map {α : Type} (f : α → String) {x : α} {l : List α}
    (hx : x ∈ l) : StrSub (f x) (concatStrings (l.map f)) := by
  induction l with
  | nil => cases hx
  | cons y ys ih =>
    rcases List.mem_cons.mp hx with h | h
    · subst h
      exact strSub_append_right _ (strSub_self _)
    · have : concatStrings ((y :: ys).map f) = f y ++ concatStrings (ys.map f) := rfl
      simpa [this] using strSub_append_left (f y) (ih h)

/-! ## Claim C1 -/

/-- An operation carrying only the fields the tag filter reads. -/
def mkTagOp (id : String) (tags : List String) : Operation :=
  { operationID := id, method := "get", path := "/foo", parameters := [],
    requestBody := none, security := [], summary := "", description := "", tags := tags }

/-- The six operations of the repository's own
`TestRegisterOpenAPITools_MultipleTagFilter`. -/
def multiTagOps : List Operation :=
  [mkTagOp "multitag" ["tag1", "tag2"],
   mkTagOp "multitagStartingWithNotMatched" ["foo", "tag1", "tag2"],
   mkTagOp "tag1" ["tag1"],
   mkTagOp "tag2" ["tag2"],
   mkTagOp "tag3" ["tag3"],
   mkTagOp "notags" []]

/-- C1: the tag filter does not register an operation whenever its tag set
intersects the filter set.  `filterByTag` consults only the operation's
first tag, so the operation tagged `["foo", "tag1", "tag2"]` (from the
repository's own `TestRegisterOpenAPITools_MultipleTagFilter`, which
expects it to be registered) is excluded under the filter
`["tag1", "tag2"]` although the tag sets intersect; the claim's own
examples (filter `{A,B}` includes `{A,C}`, excludes `{C}` and `{}`) do
hold. -/
theorem c1_tag_filter_first_tag_only_code_bug :
    filterByTag ["tag1", "tag2"] (mkTagOp "multitagStartingWithNotMatched" ["foo", "tag1", "tag2"]) = false ∧
    "tag1" ∈ (mkTagOp "multitagStartingWithNotMatched" ["foo", "tag1", "tag2"]).tags ∧
    "tag1" ∈ ["tag1", "tag2"] ∧
    registerOpToolNames multiTagOps ["tag1", "tag2"] none false false true =
      ["multitag", "tag1", "tag2", "info"] ∧
    filterByTag ["A", "B"] (mkTagOp "x" ["A", "C"]) = true ∧
    filterByTag ["A", "B"] (mkTagOp "y" ["C"]) = false ∧
    filterByTag ["A", "B"] (mkTagOp "z" []) = false := by
  decide

/-! ## Claim C5 -/

/-- A bare string-typed property schema. -/
def stringProp : PropSchema := .mk (some "string") none none [] none none

/-- A bare number-typed property schema. -/
def numberProp : PropSchema := .mk (some "number") none none [] none none

/-- C5 counterexample: for a plain string property the value embedded in
the schema-validation-failure retry suggestion is `"example"`, while the
Example-Value Rule yields `"example_string"` — the two generators are not
identical. -/
theorem c5_retry_value_differs_counterexample :
    retryExampleValue stringProp = .str "example" ∧
    generateExampleValue stringProp = .str "example_string" ∧
    retryExampleValue stringProp ≠ generateExampleValue stringProp := by
  refine ⟨rfl, rfl, ?_⟩
  intro h
  rw [show retryExampleValue stringProp = .str "example" from rfl,
    show generateExampleValue stringProp = .str "example_string" from rfl] at h
  injection h with h'
  exact absurd h' (by decide)

/-- C5 amended: the schema-validation-failure retry suggestion uses its
own inline type switch, not the Example-Value Rule; the two agree exactly
on properties without enum entries and without a declared example whose
type is number, integer or boolean (for plain strings they differ:
`"example"` versus `"example_string"`). -/
theorem c5_retry_value_agreement (prop : PropSchema)
    (henum : prop.penum = []) (hex : prop.pexample = none)
    (ht : prop.ptype = some "number" ∨ prop.ptype = some "integer" ∨
      prop.ptype = some "boolean") :
    retryExampleValue prop = generateExampleValue prop := by
  obtain ⟨t, f, d, e, ex, it⟩ := prop
  simp only [PropSchema.penum] at henum
  simp only [PropSchema.pexample] at hex
  simp only [PropSchema.ptype] at ht
  subst henum
  subst hex
  rcases ht with h | h | h <;> subst h <;> cases it <;> rfl

/-- Witness for `c5_retry_value_agreement` at the plain number property. -/
theorem c5_retry_value_agreement_witness :
    numberProp.penum = [] ∧ numberProp.pexample = none ∧
      numberProp.ptype = some "number" ∧
      retryExampleValue numberProp = generateExampleValue numberProp :=
  ⟨rfl, rfl, rfl, c5_retry_value_agreement numberProp rfl rfl (Or.inl rfl)⟩

/-! ## Claim C7 -/

lemma lookupAL_filterNe {α : Type} (m : List (String × α)) (k key : String)
    (h : ¬ k = key) :
    lookupAL (m.filter fun kv => !(kv.1 == k)) key = lookupAL m key := by
  induction m with
  | nil => rfl
  | cons kv rest ih =>
    by_cases hk : kv.1 = k
    · have h2 : ¬ kv.1 = key := fun hh => h (hk ▸ hh)
      simp [List.filter, hk, lookupAL, h2, ih, h]
    · simp only [List.filter]
      have h1 : (kv.1 == k) = false := by simp [hk]
      simp only [h1, Bool.not_false, lookupAL]
      by_cases h2 : kv.1 = key
      · simp [h2]
      · simp [h2, ih]

lemma lookupAL_mapSet_self {α : Type} (m : List (String × α)) (k : String) (v : α) :
    lookupAL (mapSetAL m k v) k = some v := by
  simp [mapSetAL, lookupAL]

lemma lookupAL_mapSet_ne {α : Type} (m : List (String × α)) (k key : String) (v : α)
    (h : ¬ k = key) :
    lookupAL (mapSetAL m k v) key = lookupAL m key := by
  have h1 : (k == key) = false := by simp [h]
  simp only [mapSetAL, lookupAL, h1]
  exact lookupAL_filterNe m k key h

/-- Invariant of the mapping-building fold: if every parameter whose
escaped name is `key` is named `orig`, and the accumulator maps `key` to
nothing or to `orig`, then so does the final table; moreover when the
final table has no entry for `key`, no processed parameter contributed
one (so any such parameter has an unchanged name), and the accumulator
also had none. -/
lemma buildMapping_fold_invariant (params : List Param) (m : List (String × String))
    (key orig : String)
    (hnames : ∀ q ∈ params, escapeParameterName q.name = key → q.name = orig)
    (hm : lookupAL m key = none ∨ lookupAL m key = some orig) :
    (lookupAL
        (params.foldl
          (fun mapping p =>
            let escaped := escapeParameterName p.name
            if escaped != p.name then mapSetAL mapping escaped p.name else mapping)
          m) key = none ∨
      lookupAL
        (params.foldl
          (fun mapping p =>
            let escaped := escapeParameterName p.name
            if escaped != p.name then mapSetAL mapping escaped p.name else mapping)
          m) key = some orig) ∧
    (lookupAL
        (params.foldl
          (fun mapping p =>
            let escaped := escapeParameterName p.name
            if escaped != p.name then mapSetAL mapping escaped p.name else mapping)
          m) key = none →
      (∀ q ∈ params, escapeParameterName q.name = key → escapeParameterName q.name = q.name) ∧
        lookupAL m key = none) := by
  induction params generalizing m with
  | nil =>
    refine ⟨hm, fun hn => ⟨fun q hq => absurd hq (List.not_mem_nil q), hn⟩⟩
  | cons p rest ih =>
    simp only [List.foldl_cons]
    set macc :=
      (let escaped := escapeParameterName p.name
       if escaped != p.name then mapSetAL m escaped p.name else m) with hmaccdef
    have hrest : ∀ q ∈ rest, escapeParameterName q.name = key → q.name = orig :=
      fun q hq => hnames q (List.mem_cons_of_mem p hq)
    have hmacccases : lookupAL macc key = none ∨ lookupAL macc key = some orig := by
      by_cases hkey : escapeParameterName p.name = key
      · by_cases hch : escapeParameterName p.name = p.name
        · have : macc = m := by
            simp only [hmaccdef]
            simp [hch]
          rw [this]
          exact hm
        · have : macc = mapSetAL m (escapeParameterName p.name) p.name := by
            simp only [hmaccdef]
            have : (escapeParameterName p.name != p.name) = true := by
              simp [hch]
            simp [this]
          rw [this, hkey, lookupAL_mapSet_self]
          exact Or.inr (by rw [hnames p (List.mem_cons_self p rest) hkey])
      · by_cases hch : escapeParameterName p.name = p.name
        · have : macc = m := by
            simp only [hmaccdef]
            simp [hch]
          rw [this]
          exact hm
        · have hmeq : macc = mapSetAL m (escapeParameterName p.name) p.name := by
            simp only [hmaccdef]
            have : (escapeParameterName p.name != p.name) = true := by
              simp [hch]
            simp [this]
          rw [hmeq, lookupAL_mapSet_ne m _ key _ hkey]
          exact hm
    obtain ⟨ih1, ih2⟩ := ih macc hrest hmacccases
    refine ⟨ih1, fun hnone => ?_⟩
    obtain ⟨ihq, ihmacc⟩ := ih2 hnone
    have hmacckey : lookupAL macc key = none := ihmacc
    constructor
    · intro q hq hqkey
      rcases List.mem_cons.mp hq with rfl | hqrest
      · by_contra hch
        have hmeq : macc = mapSetAL m (escapeParameterName q.name) q.name := by
          simp only [hmaccdef]
          have : (escapeParameterName q.name != q.name) = true := by
            simp [hch]
          simp [this]
        rw [hmeq, hqkey] at hmacckey
        rw [lookupAL_mapSet_self] at hmacckey
        cases hmacckey
      · exact ihq q hqrest hqkey
    · by_cases hkey : escapeParameterName p.name = key
      · by_cases hch : escapeParameterName p.name = p.name
        · have : macc = m := by
            simp only [hmaccdef]
            simp [hch]
          rw [this] at hmacckey
          exact hmacckey
        · have hmeq : macc = mapSetAL m (escapeParameterName p.name) p.name := by
            simp only [hmaccdef]
            have : (escapeParameterName p.name != p.name) = true := by
              simp [hch]
            simp [this]
          rw [hmeq, hkey, lookupAL_mapSet_self] at hmacckey
          cases hmacckey
      · by_cases hch : escapeParameterName p.name = p.name
        · have : macc = m := by
            simp only [hmaccdef]
            simp [hch]
          rw [this] at hmacckey
          exact hmacckey
        · have hmeq : macc = mapSetAL m (escapeParameterName p.name) p.name := by
            simp only [hmaccdef]
            have : (escapeParameterName p.name != p.name) = true := by
              simp [hch]
            simp [this]
          rw [hmeq, lookupAL_mapSet_ne m _ key _ hkey] at hmacckey
          exact hmacckey

/-- C7 amended: the round trip
`unescape(escape(p.name), buildMapping(params)) = p.name` holds for every
parameter `p` of the list whose escaped name is not shared with a
differently-named parameter of the same list (two distinct declared names
with the same escaped form collide in the table, last registered wins, so
the unrestricted round trip fails). -/
theorem c7_roundtrip_of_unique_escape (params : List Param) (p : Param)
    (hp : p ∈ params)
    (hinj : ∀ q ∈ params,
      escapeParameterName q.name = escapeParameterName p.name → q.name = p.name) :
    unescapeParameterName (escapeParameterName p.name)
      (buildParameterNameMapping params) = p.name := by
  obtain ⟨hdisj, hnone⟩ :=
    buildMapping_fold_invariant params [] (escapeParameterName p.name) p.name hinj
      (Or.inl rfl)
  unfold unescapeParameterName buildParameterNameMapping
  rcases hdisj with h | h
  · rw [h]
    exact (hnone h).1 p hp rfl
  · rw [h]

/-- C7 counterexample: with the parameter list
`["a_b_", "a[b]"]` the mapping sends `a_b_` (the escaped form of `a[b]`,
and simultaneously the unchanged escaped form of `a_b_`) to `a[b]`, so the
round trip for the parameter literally named `a_b_` returns `a[b]`, not
its own name. -/
theorem c7_roundtrip_counterexample :
    (⟨"a_b_", "query", false, some "string"⟩ : Param) ∈
        [(⟨"a_b_", "query", false, some "string"⟩ : Param),
         ⟨"a[b]", "query", false, some "string"⟩] ∧
    unescapeParameterName
        (escapeParameterName (⟨"a_b_", "query", false, some "string"⟩ : Param).name)
        (buildParameterNameMapping
          [⟨"a_b_", "query", false, some "string"⟩,
           ⟨"a[b]", "query", false, some "string"⟩]) = "a[b]" ∧
    (⟨"a_b_", "query", false, some "string"⟩ : Param).name ≠ "a[b]" := by
  decide

/-- A bracketed parameter for the round-trip witness. -/
def paramFilter : Param :=
  { name := "filter[created_at]", location := "query", required := false,
    schemaType := some "string" }

/-- Witness for `c7_roundtrip_of_unique_escape` on a singleton parameter
list with a bracketed name. -/
theorem c7_roundtrip_of_unique_escape_witness :
    paramFilter ∈ [paramFilter] ∧
    (∀ q ∈ [paramFilter],
      escapeParameterName q.name = escapeParameterName paramFilter.name →
        q.name = paramFilter.name) ∧
    unescapeParameterName (escapeParameterName paramFilter.name)
      (buildParameterNameMapping [paramFilter]) = paramFilter.name :=
  ⟨by decide, by decide,
    c7_roundtrip_of_unique_escape [paramFilter] paramFilter (by decide) (by decide)⟩

/-! ## Claim C9 -/

lemma digitChar_ne_dot (d : Nat) : (!(Nat.digitChar d == '.')) = true :=
  match d with
  | 0 => rfl | 1 => rfl | 2 => rfl | 3 => rfl | 4 => rfl | 5 => rfl | 6 => rfl | 7 => rfl
  | 8 => rfl | 9 => rfl | 10 => rfl | 11 => rfl | 12 => rfl | 13 => rfl | 14 => rfl
  | 15 => rfl | _ + 16 => rfl

lemma natDecAux_all_ne_dot :
    ∀ (fuel n : Nat) (acc : List Char),
      acc.all (fun c => !(c == '.')) = true →
      (natDecAux fuel n acc).all (fun c => !(c == '.')) = true := by
  intro fuel
  induction fuel with
  | zero => intro n acc h; exact h
  | succ f ih =>
    intro n acc h
    have hacc : (Nat.digitChar (n % 10) :: acc).all (fun c => !(c == '.')) = true := by
      simp only [List.all_cons, h, Bool.and_true]
      exact digitChar_ne_dot (n % 10)
    unfold natDecAux
    by_cases hn : n < 10
    · simpa [hn] using hacc
    · simpa [hn] using ih (n / 10) _ hacc

lemma intDecimal_no_dot (i : Int) : (intDecimal i).data.all (fun c => !(c == '.')) = true := by
  unfold intDecimal natDecimal
  by_cases h : i < 0
  · simp only [h, ite_true, String.data_append]
    rw [List.all_append]
    refine Bool.and_eq_true_iff.mpr ⟨rfl, ?_⟩
    exact natDecAux_all_ne_dot _ _ [] rfl
  · simp only [h, ite_false]
    exact natDecAux_all_ne_dot _ _ [] rfl

/-- A one-parameter operation with an integer-typed path parameter. -/
def op9 : Operation :=
  { operationID := "getItem", method := "get", path := "/items/\x7bid\x7d",
    parameters := [⟨"id", "path", true, some "integer"⟩],
    requestBody := none, security := [], summary := "", description := "", tags := [] }

/-- C9: an integer-typed parameter is rendered via integer truncation,
the rendering never contains a decimal point, an integer-typed path
parameter bound to the floating value `5.0` substitutes literally `"5"`
into the path template (rationals represent the `float64` argument, and
`5.0` is the rational `5`), and non-integer types render via the default
`%v` stringification. -/
theorem c9_integer_path_formatting :
    (∀ q : ℚ, formatParameterValue (.num q) true = intDecimal (ratTrunc q)) ∧
    (∀ i : Int, (intDecimal i).data.all (fun c => !(c == '.')) = true) ∧
    buildPath op9 [("id", .num 5)] (buildParameterNameMapping op9.parameters) = "/items/5" ∧
    buildFullURL op9 [("id", .num 5)] ["http://h"] 0
      (buildParameterNameMapping op9.parameters) = "http://h/items/5" ∧
    (∀ v : Value, formatParameterValue v false = goFormatValue v) := by
  refine ⟨fun q => rfl, intDecimal_no_dot, by decide, by decide, fun v => rfl⟩

/-! ## Shared dispatcher fixtures and lemmas -/

/-- The full URL the dispatcher builds for a call. -/
def dispatchedURL (op : Operation) (args : List (String × Value))
    (baseURLs : List String) (ridx : Nat) : String :=
  buildFullURL op args baseURLs ridx (buildParameterNameMapping op.parameters)

/-- The response the dispatcher's transport returns for a call. -/
def dispatchedResponse (transport : HTTPRequest → HTTPResponse) (op : Operation)
    (args : List (String × Value)) (doc : Doc) (env : Env) (baseURLs : List String)
    (ridx : Nat) : HTTPResponse :=
  transport (buildHTTPRequest op args doc env (dispatchedURL op args baseURLs ridx))

lemma dispatch_ok_eq (validator : List (String × Value) → ValidationOutcome)
    (transport : HTTPRequest → HTTPResponse) (confirm : Bool) (name : String)
    (op : Operation) (schema : InputSchema) (doc : Doc) (env : Env)
    (baseURLs : List String) (ridx : Nat) (args : List (String × Value))
    (hv : validator args = .ok) :
    dispatch validator transport confirm name op schema doc env baseURLs ridx args =
      classifyResponse confirm name op schema args (dispatchedURL op args baseURLs ridx)
        (dispatchedResponse transport op args doc env baseURLs ridx) := by
  unfold dispatch
  rw [hv]
  rfl

lemma streamRequested_of_none {args : List (String × Value)}
    (h : lookupArg args "stream" = none) : streamRequested args = false := by
  unfold streamRequested
  rw [h]

lemma classify_confirm_branch (name : String) (op : Operation) (schema : InputSchema)
    (args : List (String × Value)) (fullURL : String) (resp : HTTPResponse)
    (h2 : 200 ≤ resp.status ∧ resp.status < 300)
    (hbin : isBinaryContentType resp.contentType = false)
    (hstream : streamRequested args = false)
    (hmut : isMutatingMethod (goToUpper op.method) = true)
    (hconf : lookupArg args "__confirmed" = none) :
    classifyResponse true name op schema args fullURL resp = confirmationResult name := by
  unfold classifyResponse
  rw [if_neg (by omega : ¬(resp.status < 200 ∨ 300 ≤ resp.status))]
  simp only [hbin, hstream, hmut, hconf, Bool.false_eq_true, if_false, Bool.true_and,
    Option.isNone_none, if_true, ite_false, ite_true, Bool.and_self, true_and]

lemma classify_bypass_branch (name : String) (op : Operation) (schema : InputSchema)
    (args : List (String × Value)) (fullURL : String) (resp : HTTPResponse) (v : Value)
    (h2 : 200 ≤ resp.status ∧ resp.status < 300)
    (hbin : isBinaryContentType resp.contentType = false)
    (hconf : lookupArg args "__confirmed" = some v) :
    classifyResponse true name op schema args fullURL resp =
      mkTextResult (envelopeText op fullURL resp) := by
  unfold classifyResponse
  rw [if_neg (by omega : ¬(resp.status < 200 ∨ 300 ≤ resp.status))]
  simp only [hbin, hconf, Bool.false_eq_true, if_false, ite_false, ite_true, Option.isNone_some]
  by_cases hs : streamRequested args
  · simp [hs]
  · simp [hs]

lemma classify_stream_branch (confirm : Bool) (name : String) (op : Operation)
    (schema : InputSchema) (args : List (String × Value)) (fullURL : String)
    (resp : HTTPResponse)
    (h2 : 200 ≤ resp.status ∧ resp.status < 300)
    (hbin : isBinaryContentType resp.contentType = false)
    (hstream : streamRequested args = true) :
    classifyResponse confirm name op schema args fullURL resp =
      mkTextResult (envelopeText op fullURL resp) := by
  unfold classifyResponse
  rw [if_neg (by omega : ¬(resp.status < 200 ∨ 300 ≤ resp.status))]
  simp only [hbin, hstream, Bool.false_eq_true, if_false, ite_true, ite_false]

lemma envelope_ne_confirmation (op : Operation) (fullURL : String) (resp : HTTPResponse)
    (name : String) :
    mkTextResult (envelopeText op fullURL resp) ≠ confirmationResult name := by
  intro h
  have ht : (mkTextResult (envelopeText op fullURL resp)).text = (confirmationResult name).text :=
    congrArg McpResult.text h
  have hl : (envelopeText op fullURL resp).data.head? = some 'H' := by
    unfold envelopeText
    simp [String.data_append]
  have hr : ((confirmationResult name).text).data.head? = some '⚠' := by
    unfold confirmationResult mkTextResult
    simp [String.data_append]
  rw [show (mkTextResult (envelopeText op fullURL resp)).text = envelopeText op fullURL resp
    from rfl] at ht
  rw [ht, hr] at hl
  simp at hl

/-- A mutating operation with no parameters, body or security. -/
def opPost : Operation :=
  { operationID := "createThing", method := "post", path := "/things", parameters := [],
    requestBody := none, security := [], summary := "", description := "", tags := [] }

/-- An environment with no credentials configured. -/
def envEmpty : Env := { apiKey := "", apiKeyHeader := "", bearerToken := "", basicAuth := "" }

/-- A document with no security schemes. -/
def docEmpty : Doc := { securitySchemes := [] }

/-- The empty assembled schema. -/
def schemaEmpty : InputSchema := { properties := [], required := [] }

/-- A validator that accepts everything. -/
def validatorOk : List (String × Value) → ValidationOutcome := fun _ => .ok

/-- A stub transport answering 200 with a JSON body. -/
def transport200Json : HTTPRequest → HTTPResponse :=
  fun _ => { status := 200, contentType := "application/json", contentDisposition := "", body := "ok" }

/-! ## Claim C2 -/

/-- C2: on a mutating-method call with confirmation enabled, a non-binary
2xx transport response and no `stream` argument, the dispatcher returns
the confirmation-request result when the `__confirmed` marker is absent,
and the identical call with `__confirmed: true` added returns the 200
response envelope. -/
theorem c2_mutating_confirmation_gate
    (validator : List (String × Value) → ValidationOutcome)
    (transport : HTTPRequest → HTTPResponse) (name : String) (op : Operation)
    (schema : InputSchema) (doc : Doc) (env : Env) (baseURLs : List String) (ridx : Nat)
    (args : List (String × Value))
    (hv : validator args = .ok)
    (hv' : validator (("__confirmed", Value.bool true) :: args) = .ok)
    (hmut : isMutatingMethod (goToUpper op.method) = true)
    (hstream : lookupArg args "stream" = none)
    (hconf : lookupArg args "__confirmed" = none)
    (h2a : 200 ≤ (dispatchedResponse transport op args doc env baseURLs ridx).status ∧
      (dispatchedResponse transport op args doc env baseURLs ridx).status < 300)
    (hbina : isBinaryContentType
      (dispatchedResponse transport op args doc env baseURLs ridx).contentType = false)
    (h2b : 200 ≤ (dispatchedResponse transport op (("__confirmed", Value.bool true) :: args)
        doc env baseURLs ridx).status ∧
      (dispatchedResponse transport op (("__confirmed", Value.bool true) :: args)
        doc env baseURLs ridx).status < 300)
    (hbinb : isBinaryContentType
      (dispatchedResponse transport op (("__confirmed", Value.bool true) :: args)
        doc env baseURLs ridx).contentType = false) :
    dispatch validator transport true name op schema doc env baseURLs ridx args =
      confirmationResult name ∧
    dispatch validator transport true name op schema doc env baseURLs ridx
        (("__confirmed", Value.bool true) :: args) =
      mkTextResult
        (envelopeText op
          (dispatchedURL op (("__confirmed", Value.bool true) :: args) baseURLs ridx)
          (dispatchedResponse transport op (("__confirmed", Value.bool true) :: args)
            doc env baseURLs ridx)) := by
  constructor
  · rw [dispatch_ok_eq validator transport true name op schema doc env baseURLs ridx args hv]
    exact classify_confirm_branch name op schema args _ _ h2a hbina
      (streamRequested_of_none hstream) hmut hconf
  · rw [dispatch_ok_eq validator transport true name op schema doc env baseURLs ridx
      (("__confirmed", Value.bool true) :: args) hv']
    exact classify_bypass_branch name op schema _ _ _ (Value.bool true) h2b hbinb rfl

/-- Witness for `c2_mutating_confirmation_gate` on a POST operation and a
stub 200 transport. -/
theorem c2_mutating_confirmation_gate_witness :
    validatorOk ([] : List (String × Value)) = .ok ∧
    isMutatingMethod (goToUpper opPost.method) = true ∧
    lookupArg ([] : List (String × Value)) "__confirmed" = none ∧
    (dispatch validatorOk transport200Json true "createThing" opPost schemaEmpty docEmpty
        envEmpty ["http://h"] 0 [] = confirmationResult "createThing" ∧
      dispatch validatorOk transport200Json true "createThing" opPost schemaEmpty docEmpty
          envEmpty ["http://h"] 0 [("__confirmed", Value.bool true)] =
        mkTextResult
          (envelopeText opPost
            (dispatchedURL opPost [("__confirmed", Value.bool true)] ["http://h"] 0)
            (dispatchedResponse transport200Json opPost [("__confirmed", Value.bool true)]
              docEmpty envEmpty ["http://h"] 0)) ) :=
  ⟨rfl, by decide, rfl,
    c2_mutating_confirmation_gate validatorOk transport200Json "createThing" opPost
      schemaEmpty docEmpty envEmpty ["http://h"] 0 [] rfl rfl (by decide) rfl rfl
      (by decide) (by decide) (by decide) (by decide)⟩

/-! ## Claim C10 -/

/-- C10: the mutating-action confirmation gate tests only for presence of
the `__confirmed` key: on a mutating call with confirmation enabled and a
non-binary 2xx response, any `__confirmed` value whatsoever — `false`, a
string, anything — bypasses the gate and the dispatcher returns the
response envelope, exactly as `__confirmed: true` does. -/
theorem c10_confirmed_gate_presence_only
    (validator : List (String × Value) → ValidationOutcome)
    (transport : HTTPRequest → HTTPResponse) (name : String) (op : Operation)
    (schema : InputSchema) (doc : Doc) (env : Env) (baseURLs : List String) (ridx : Nat)
    (args : List (String × Value)) (v : Value)
    (hv : validator args = .ok)
    (hmut : isMutatingMethod (goToUpper op.method) = true)
    (hconf : lookupArg args "__confirmed" = some v)
    (h2 : 200 ≤ (dispatchedResponse transport op args doc env baseURLs ridx).status ∧
      (dispatchedResponse transport op args doc env baseURLs ridx).status < 300)
    (hbin : isBinaryContentType
      (dispatchedResponse transport op args doc env baseURLs ridx).contentType = false) :
    dispatch validator transport true name op schema doc env baseURLs ridx args =
      mkTextResult
        (envelopeText op (dispatchedURL op args baseURLs ridx)
          (dispatchedResponse transport op args doc env baseURLs ridx)) := by
  rw [dispatch_ok_eq validator transport true name op schema doc env baseURLs ridx args hv]
  exact classify_bypass_branch name op schema args _ _ v h2 hbin hconf

/-- Witness for `c10_confirmed_gate_presence_only` with the non-`true`
marker `__confirmed: false`. -/
theorem c10_confirmed_gate_presence_only_witness :
    validatorOk [("__confirmed", Value.bool false)] = .ok ∧
    isMutatingMethod (goToUpper opPost.method) = true ∧
    lookupArg [("__confirmed", Value.bool false)] "__confirmed" = some (Value.bool false) ∧
    dispatch validatorOk transport200Json true "createThing" opPost schemaEmpty docEmpty
        envEmpty ["http://h"] 0 [("__confirmed", Value.bool false)] =
      mkTextResult
        (envelopeText opPost
          (dispatchedURL opPost [("__confirmed", Value.bool false)] ["http://h"] 0)
          (dispatchedResponse transport200Json opPost [("__confirmed", Value.bool false)]
            docEmpty envEmpty ["http://h"] 0)) :=
  ⟨rfl, by decide, rfl,
    c10_confirmed_gate_presence_only validatorOk transport200Json "createThing" opPost
      schemaEmpty docEmpty envEmpty ["http://h"] 0 [("__confirmed", Value.bool false)]
      (Value.bool false) rfl (by decide) rfl (by decide) (by decide)⟩

/-! ## Claim C3 -/

/-- C3 counterexample: on a mutating call with confirmation enabled, no
`__confirmed` marker and `stream: true`, the dispatcher returns the 200
response envelope — not the confirmation-request result the claim
predicts — so `stream` changes which result is produced, not only its
formatting. -/
theorem c3_stream_bypasses_confirmation_counterexample :
    isMutatingMethod (goToUpper opPost.method) = true ∧
    lookupArg [("stream", Value.bool true)] "__confirmed" = none ∧
    dispatch validatorOk transport200Json true "createThing" opPost schemaEmpty docEmpty
        envEmpty ["http://h"] 0 [("stream", Value.bool true)] =
      mkTextResult "HTTP post http://h/things\nStatus: 200\nResponse:\nok" ∧
    dispatch validatorOk transport200Json true "createThing" opPost schemaEmpty docEmpty
        envEmpty ["http://h"] 0 [("stream", Value.bool true)] ≠
      confirmationResult "createThing" := by
  refine ⟨by decide, rfl, by decide, ?_⟩
  intro h
  rw [show dispatch validatorOk transport200Json true "createThing" opPost schemaEmpty
      docEmpty envEmpty ["http://h"] 0 [("stream", Value.bool true)] =
      mkTextResult "HTTP post http://h/things\nStatus: 200\nResponse:\nok" by decide] at h
  have := congrArg McpResult.text h
  exact absurd this (by decide)

/-- C3 amended: the `stream: true` argument short-circuits response
handling: for every call with a non-binary 2xx response it makes the
dispatcher return the formatted envelope immediately, before (and instead
of) the mutating-action confirmation gate — in particular a mutating call
with confirmation enabled and no `__confirmed` marker but `stream: true`
yields the response envelope, not the confirmation request. -/
theorem c3_stream_short_circuits_before_confirmation
    (validator : List (String × Value) → ValidationOutcome)
    (transport : HTTPRequest → HTTPResponse) (confirm : Bool) (name : String)
    (op : Operation) (schema : InputSchema) (doc : Doc) (env : Env)
    (baseURLs : List String) (ridx : Nat) (args : List (String × Value))
    (hv : validator args = .ok)
    (hstream : streamRequested args = true)
    (h2 : 200 ≤ (dispatchedResponse transport op args doc env baseURLs ridx).status ∧
      (dispatchedResponse transport op args doc env baseURLs ridx).status < 300)
    (hbin : isBinaryContentType
      (dispatchedResponse transport op args doc env baseURLs ridx).contentType = false) :
    dispatch validator transport confirm name op schema doc env baseURLs ridx args =
      mkTextResult
        (envelopeText op (dispatchedURL op args baseURLs ridx)
          (dispatchedResponse transport op args doc env baseURLs ridx)) ∧
    dispatch validator transport confirm name op schema doc env baseURLs ridx args ≠
      confirmationResult name := by
  have h1 :
      dispatch validator transport confirm name op schema doc env baseURLs ridx args =
        mkTextResult
          (envelopeText op (dispatchedURL op args baseURLs ridx)
            (dispatchedResponse transport op args doc env baseURLs ridx)) := by
    rw [dispatch_ok_eq validator transport confirm name op schema doc env baseURLs ridx args hv]
    exact classify_stream_branch confirm name op schema args _ _ h2 hbin hstream
  refine ⟨h1, ?_⟩
  rw [h1]
  exact envelope_ne_confirmation op _ _ name

/-- Witness for `c3_stream_short_circuits_before_confirmation` on the
mutating fixture with `stream: true`. -/
theorem c3_stream_short_circuits_before_confirmation_witness :
    validatorOk [("stream", Value.bool true)] = .ok ∧
    streamRequested [("stream", Value.bool true)] = true ∧
    (dispatch validatorOk transport200Json true "createThing" opPost schemaEmpty docEmpty
        envEmpty ["http://h"] 0 [("stream", Value.bool true)] =
      mkTextResult
        (envelopeText opPost
          (dispatchedURL opPost [("stream", Value.bool true)] ["http://h"] 0)
          (dispatchedResponse transport200Json opPost [("stream", Value.bool true)]
            docEmpty envEmpty ["http://h"] 0)) ∧
      dispatch validatorOk transport200Json true "createThing" opPost schemaEmpty docEmpty
          envEmpty ["http://h"] 0 [("stream", Value.bool true)] ≠
        confirmationResult "createThing") :=
  ⟨rfl, rfl,
    c3_stream_short_circuits_before_confirmation validatorOk transport200Json true
      "createThing" opPost schemaEmpty docEmpty envEmpty ["http://h"] 0
      [("stream", Value.bool true)] rfl rfl (by decide) (by decide)⟩

/-! ## Claim C4 -/

/-- An apiKey scheme placing the credential in header `X-Key`. -/
def schemeXKey : SecurityScheme :=
  { stype := "apiKey", scheme := "", location := "header", name := "X-Key" }

/-- An http-bearer scheme. -/
def schemeBearerHTTP : SecurityScheme :=
  { stype := "http", scheme := "bearer", location := "", name := "" }

/-- A document declaring the apiKey and bearer schemes. -/
def doc4 : Doc := { securitySchemes := [("keyAuth", schemeXKey), ("bearerAuth", schemeBearerHTTP)] }

/-- Credentials: an API key and a basic-auth pair, but no bearer token. -/
def env4 : Env := { apiKey := "k", apiKeyHeader := "", bearerToken := "", basicAuth := "u:p" }

/-- An operation with two security alternatives: the apiKey scheme, then
the bearer scheme. -/
def op4two : Operation :=
  { operationID := "getX", method := "get", path := "/x", parameters := [],
    requestBody := none, security := [["keyAuth"], ["bearerAuth"]], summary := "",
    description := "", tags := [] }

/-- An operation whose security is one alternative requiring the apiKey
scheme. -/
def op4single : Operation :=
  { operationID := "getX", method := "get", path := "/x", parameters := [],
    requestBody := none, security := [["keyAuth"]], summary := "", description := "",
    tags := [] }

/-- A document declaring only the apiKey scheme. -/
def doc4single : Doc := { securitySchemes := [("keyAuth", schemeXKey)] }

/-- C4 counterexample: with security alternatives
`[[apiKey X-Key], [http bearer]]`, an API key and a basic-auth credential
configured but no bearer token, the apiKey scheme is satisfied (and `X-Key`
is set on the dispatched request), yet because the later bearer attempt
fails and overwrites the satisfied-flag, the legacy fallback still runs
and sets `Authorization: Basic dTpw` (`dTpw` = base64 of `u:p`) — a
declared scheme was satisfied but the fallback was applied anyway. -/
theorem c4_fallback_despite_satisfied_scheme_counterexample :
    (fulfillSecurity "keyAuth" ⟨"GET", "http://h/x", [], ""⟩ doc4 env4).2 = true ∧
    getHeader (buildHTTPRequest op4two [] doc4 env4 "http://h/x") "X-Key" = some "k" ∧
    getHeader (buildHTTPRequest op4two [] doc4 env4 "http://h/x") "Authorization" =
      some "Basic dTpw" := by
  decide

/-- C4 amended: the authenticate step attempts every named scheme of every
alternative without stopping at a satisfied one, and the satisfied-flag
retains only the outcome of the last attempt, so the legacy
global-credential fallback is skipped iff the final attempted scheme was
satisfied (an earlier satisfied scheme does not suppress it).  For an
operation whose security is exactly one alternative requiring an apiKey
scheme in header `X-Key`, with an API-key credential configured, the
dispatched request carries header `X-Key` with that value and the fallback
path sets no `Authorization` header. -/
theorem c4_last_scheme_decides_fallback :
    (∀ (doc : Doc) (env : Env) (alts : List (List String)) (s : String) (req : HTTPRequest),
      applySecurity doc env (alts ++ [[s]]) req =
        fulfillSecurity s (applySecurity doc env alts req).1 doc env) ∧
    (∀ k : String, k ≠ "" →
      getHeader (buildHTTPRequest op4single []
          doc4single { apiKey := k, apiKeyHeader := "", bearerToken := "", basicAuth := "" }
          "http://h/x") "X-Key" = some k ∧
      getHeader (buildHTTPRequest op4single []
          doc4single { apiKey := k, apiKeyHeader := "", bearerToken := "", basicAuth := "" }
          "http://h/x") "Authorization" = none) := by
  constructor
  · intro doc env alts s req
    unfold applySecurity
    rw [List.foldl_append]
    rfl
  · intro k hk
    have hkb : (k != "") = true := by
      simp [bne_iff_ne, hk]
    unfold buildHTTPRequest buildBody requestBodyMedia
    simp only [op4single]
    unfold applySecurity fulfillSecurity
    simp only [List.foldl_cons, List.foldl_nil, doc4single, schemeXKey, lookupAL]
    simp only [hkb]
    simp [setHeader, getHeader, lookupAL]

/-- Witness for `c4_last_scheme_decides_fallback` at the credential
`"secret"`. -/
theorem c4_last_scheme_decides_fallback_witness :
    ("secret" : String) ≠ "" ∧
    (getHeader (buildHTTPRequest op4single []
        doc4single { apiKey := "secret", apiKeyHeader := "", bearerToken := "", basicAuth := "" }
        "http://h/x") "X-Key" = some "secret" ∧
      getHeader (buildHTTPRequest op4single []
        doc4single { apiKey := "secret", apiKeyHeader := "", bearerToken := "", basicAuth := "" }
        "http://h/x") "Authorization" = none) :=
  ⟨by decide, c4_last_scheme_decides_fallback.2 "secret" (by decide)⟩

/-! ## Claim C6 -/

/-- C6: when the argument object fails schema validation the dispatcher's
result does not depend on the transport at all (no HTTP request is
performed), and it is an error result carrying the synthesized violation
messages together with the retry suggestion. -/
theorem c6_validation_failure_is_local
    (validator : List (String × Value) → ValidationOutcome)
    (t1 t2 : HTTPRequest → HTTPResponse) (confirm : Bool) (name : String) (op : Operation)
    (schema : InputSchema) (doc : Doc) (env : Env) (baseURLs : List String) (ridx : Nat)
    (args : List (String × Value)) (errs : List VErr)
    (hv : validator args = .invalid errs) :
    dispatch validator t1 confirm name op schema doc env baseURLs ridx args =
      dispatch validator t2 confirm name op schema doc env baseURLs ridx args ∧
    dispatch validator t1 confirm name op schema doc env baseURLs ridx args =
      mkErrorResult (validationFailureText name schema errs) ∧
    (dispatch validator t1 confirm name op schema doc env baseURLs ridx args).isError = true ∧
    StrSub (retrySuggestion name schema)
      (dispatch validator t1 confirm name op schema doc env baseURLs ridx args).text := by
  have h1 : ∀ t : HTTPRequest → HTTPResponse,
      dispatch validator t confirm name op schema doc env baseURLs ridx args =
        mkErrorResult (validationFailureText name schema errs) := by
    intro t
    unfold dispatch
    rw [hv]
  refine ⟨(h1 t1).trans (h1 t2).symm, h1 t1, by rw [h1 t1]; rfl, ?_⟩
  rw [h1 t1]
  show StrSub (retrySuggestion name schema) (validationFailureText name schema errs)
  unfold validationFailureText
  exact strSub_append_left _ (strSub_self _)

/-- A validator rejecting every argument object with one missing-required
violation. -/
def validatorReject : List (String × Value) → ValidationOutcome :=
  fun _ => .invalid [⟨"required", some "name", ""⟩]

/-- A stub transport answering 404 with a text body. -/
def transport404Text : HTTPRequest → HTTPResponse :=
  fun _ => { status := 404, contentType := "text/plain", contentDisposition := "", body := "nf" }

/-- Witness for `c6_validation_failure_is_local` against two different
stub transports. -/
theorem c6_validation_failure_is_local_witness :
    validatorReject [] = .invalid [⟨"required", some "name", ""⟩] ∧
    (dispatch validatorReject transport200Json false "createThing" opPost schemaEmpty
        docEmpty envEmpty ["http://h"] 0 [] =
      dispatch validatorReject transport404Text false "createThing" opPost schemaEmpty
        docEmpty envEmpty ["http://h"] 0 [] ∧
    dispatch validatorReject transport200Json false "createThing" opPost schemaEmpty
        docEmpty envEmpty ["http://h"] 0 [] =
      mkErrorResult (validationFailureText "createThing" schemaEmpty
        [⟨"required", some "name", ""⟩]) ∧
    (dispatch validatorReject transport200Json false "createThing" opPost schemaEmpty
        docEmpty envEmpty ["http://h"] 0 []).isError = true ∧
    StrSub (retrySuggestion "createThing" schemaEmpty)
      (dispatch validatorReject transport200Json false "createThing" opPost schemaEmpty
        docEmpty envEmpty ["http://h"] 0 []).text) :=
  ⟨rfl,
    c6_validation_failure_is_local validatorReject transport200Json transport404Text false
      "createThing" opPost schemaEmpty docEmpty envEmpty ["http://h"] 0 []
      [⟨"required", some "name", ""⟩] rfl⟩

/-! ## Claim C8 -/

/-- C8: for every tool call answered upstream with a non-binary HTTP 404
response, the dispatcher returns an error result, and for every
path-location parameter of the operation the 404 guidance embedded in the
result's text contains the line showing that parameter with either its
supplied argument value or the literal `NOT_PROVIDED`. -/
theorem c8_404_enumerates_path_params
    (validator : List (String × Value) → ValidationOutcome)
    (transport : HTTPRequest → HTTPResponse) (confirm : Bool) (name : String)
    (op : Operation) (schema : InputSchema) (doc : Doc) (env : Env)
    (baseURLs : List String) (ridx : Nat) (args : List (String × Value)) (p : Param)
    (hv : validator args = .ok)
    (hp : p ∈ op.parameters)
    (hloc : (p.location == "path") = true)
    (hstatus : (dispatchedResponse transport op args doc env baseURLs ridx).status = 404)
    (hbin : isBinaryContentType
      (dispatchedResponse transport op args doc env baseURLs ridx).contentType = false) :
    (dispatch validator transport confirm name op schema doc env baseURLs ridx args).isError = true ∧
    StrSub (param404Line args p.name)
      (generateAI404ErrorResponse op schema args
        (dispatchedResponse transport op args doc env baseURLs ridx).body) ∧
    StrSub
      (generateAI404ErrorResponse op schema args
        (dispatchedResponse transport op args doc env baseURLs ridx).body)
      (dispatch validator transport confirm name op schema doc env baseURLs ridx args).text := by
  have hmem : p.name ∈ pathParamNames op := by
    unfold pathParamNames
    exact List.mem_map_of_mem _ (List.mem_filter.mpr ⟨hp, hloc⟩)
  have hlen : (pathParamNames op).length > 0 :=
    List.length_pos.mpr (List.ne_nil_of_mem hmem)
  have hsec :
      StrSub (param404Line args p.name)
        (if (pathParamNames op).length > 0 then
          "PATH PARAMETERS IN THIS ENDPOINT:\n" ++
            concatStrings ((pathParamNames op).map (param404Line args)) ++ "\n"
        else "") := by
    rw [if_pos hlen]
    exact strSub_append_right _ (strSub_append_left _ (strSub_of_mem_map _ hmem))
  have hsub404 :
      StrSub (param404Line args p.name)
        (generateAI404ErrorResponse op schema args
          (dispatchedResponse transport op args doc env baseURLs ridx).body) := by
    unfold generateAI404ErrorResponse
    exact strSub_append_right _ (strSub_append_right _ (strSub_append_right _
      (strSub_append_right _ (strSub_append_right _ (strSub_append_right _
        (strSub_append_right _ (strSub_append_right _ (strSub_append_right _
          (strSub_append_right _ (strSub_append_left _ hsec))))))))))
  have hhead :
      (generateAI404ErrorResponse op schema args
        (dispatchedResponse transport op args doc env baseURLs ridx).body).data.head? =
        some 'R' := by
    unfold generateAI404ErrorResponse
    set_option maxRecDepth 8000 in
    simp [String.data_append]
  have hne :
      generateAI404ErrorResponse op schema args
        (dispatchedResponse transport op args doc env baseURLs ridx).body ≠ "" := by
    intro h
    rw [h] at hhead
    exact Option.noConfusion hhead
  have hneb :
      (generateAI404ErrorResponse op schema args
        (dispatchedResponse transport op args doc env baseURLs ridx).body != "") = true := by
    simp [bne_iff_ne, hne]
  have hsugg :
      errorSuggestion op schema args (dispatchedResponse transport op args doc env baseURLs ridx) =
        generateAI404ErrorResponse op schema args
          (dispatchedResponse transport op args doc env baseURLs ridx).body := by
    unfold errorSuggestion
    simp only [hstatus]
    norm_num
  have hD :
      dispatch validator transport confirm name op schema doc env baseURLs ridx args =
        textErrorResult op
          (generateAI404ErrorResponse op schema args
            (dispatchedResponse transport op args doc env baseURLs ridx).body)
          (dispatchedURL op args baseURLs ridx)
          (dispatchedResponse transport op args doc env baseURLs ridx) := by
    rw [dispatch_ok_eq validator transport confirm name op schema doc env baseURLs ridx args hv]
    unfold classifyResponse
    rw [if_pos (by rw [hstatus]; omega :
      (dispatchedResponse transport op args doc env baseURLs ridx).status < 200 ∨
        300 ≤ (dispatchedResponse transport op args doc env baseURLs ridx).status)]
    unfold nonSuccessResult
    rw [hsugg, hbin]
    simp only [Bool.false_eq_true, if_false, ite_false]
  refine ⟨by rw [hD]; rfl, hsub404, ?_⟩
  rw [hD]
  unfold textErrorResult mkErrorResult
  simp only [hneb, if_true, ite_true]
  exact strSub_append_right _ (strSub_append_right _ (strSub_append_right _
    (strSub_append_right _ (strSub_append_right _
      (strSub_append_left _ (strSub_append_left _ (strSub_self _)))))))

/-- A one-string-path-parameter operation for the 404 witness. -/
def op8 : Operation :=
  { operationID := "getItem", method := "get", path := "/items/\x7bid\x7d",
    parameters := [⟨"id", "path", true, some "string"⟩],
    requestBody := none, security := [], summary := "", description := "", tags := [] }

/-- Witness for `c8_404_enumerates_path_params` with the path parameter
`id` supplied as `"42"` against a stub 404 transport. -/
theorem c8_404_enumerates_path_params_witness :
    validatorOk [("id", Value.str "42")] = .ok ∧
    (⟨"id", "path", true, some "string"⟩ : Param) ∈ op8.parameters ∧
    ((⟨"id", "path", true, some "string"⟩ : Param).location == "path") = true ∧
    (dispatchedResponse transport404Text op8 [("id", Value.str "42")] docEmpty envEmpty
      ["http://h"] 0).status = 404 ∧
    ((dispatch validatorOk transport404Text false "getItem" op8 schemaEmpty docEmpty envEmpty
        ["http://h"] 0 [("id", Value.str "42")]).isError = true ∧
      StrSub (param404Line [("id", Value.str "42")] (⟨"id", "path", true, some "string"⟩ : Param).name)
        (generateAI404ErrorResponse op8 schemaEmpty [("id", Value.str "42")]
          (dispatchedResponse transport404Text op8 [("id", Value.str "42")] docEmpty envEmpty
            ["http://h"] 0).body) ∧
      StrSub
        (generateAI404ErrorResponse op8 schemaEmpty [("id", Value.str "42")]
          (dispatchedResponse transport404Text op8 [("id", Value.str "42")] docEmpty envEmpty
            ["http://h"] 0).body)
        (dispatch validatorOk transport404Text false "getItem" op8 schemaEmpty docEmpty envEmpty
          ["http://h"] 0 [("id", Value.str "42")]).text) :=
  ⟨rfl, by decide, rfl, rfl,
    c8_404_enumerates_path_params validatorOk transport404Text false "getItem" op8
      schemaEmpty docEmpty envEmpty ["http://h"] 0 [("id", Value.str "42")]
      ⟨"id", "path", true, some "string"⟩ rfl (by decide) rfl rfl rfl⟩
